import Mathlib

/-!
# Verification development for the Bullet-backed physics object layer

Shallow embedding of `Physics_CollisionSet.cpp` and `Physics_Object.cpp`.

Conventions of the embedding

* A C++ `int` word is represented by its 32-bit pattern, a natural number below `2 ^ 32`;
  an index is a mathematical integer.
* `float` values are represented by exact rationals.
* A nullable output pointer is a `Bool` (is it non-null) and the value written through it is an
  `Option` (`none`: nothing was written).
-/

set_option autoImplicit false

/-! ## Part 1: `CPhysicsCollisionSet` -/

namespace CollisionSet

/-- Number of distinct bit patterns of a 32-bit `int`. -/
def WORD : Nat := 2 ^ 32

/-- The C++ expression `1 << n` on a 32-bit `int`, as a bit pattern. The shift count is reduced
modulo 32, as the x86 shift instruction does; for `0 ≤ n < 32`, the only counts for which C++
defines the result, this is the bit pattern of `1 << n`. -/
def shl1 (n : Int) : Nat := (2 ^ (n % 32).toNat) % WORD

/-- The C++ expression `~w` on a 32-bit pattern. -/
def bnot (w : Nat) : Nat := WORD - 1 - w % WORD

/-- State of a `CPhysicsCollisionSet`. `m_collArray k` is the word at `m_collArray[k]`; the table
proper is the words `0 ≤ k < m_iMaxEntries` (left uninitialised by the constructor, hence
arbitrary), and an index outside of it addresses the neighbouring word of memory, as the compiled
code does. -/
structure CPhysicsCollisionSet where
  m_iMaxEntries : Int
  m_collArray : Int → Nat

/-- The condition shared by the `Assert` and the `if` of the three member functions:
`(index0 < m_iMaxEntries && index0 > 0) || (index1 < m_iMaxEntries && index1 > 0)`. -/
def guard (s : CPhysicsCollisionSet) (index0 index1 : Int) : Bool :=
  (decide (index0 < s.m_iMaxEntries) && decide (index0 > 0)) ||
    (decide (index1 < s.m_iMaxEntries) && decide (index1 > 0))

/-- The statement `m_collArray[k] = v`. -/
def store (s : CPhysicsCollisionSet) (k : Int) (v : Nat) : CPhysicsCollisionSet :=
  { s with m_collArray := fun n => if n = k then v else s.m_collArray n }

/-- `CPhysicsCollisionSet::EnableCollisions`. -/
def EnableCollisions (s : CPhysicsCollisionSet) (index0 index1 : Int) : CPhysicsCollisionSet :=
  if guard s index0 index1 then s
  else
    let s1 := store s index0 (s.m_collArray index0 ||| shl1 index1)
    store s1 index1 (s1.m_collArray index1 ||| shl1 index0)

/-- `CPhysicsCollisionSet::DisableCollisions`. -/
def DisableCollisions (s : CPhysicsCollisionSet) (index0 index1 : Int) : CPhysicsCollisionSet :=
  if guard s index0 index1 then s
  else
    let s1 := store s index0 (s.m_collArray index0 &&& bnot (shl1 index1))
    store s1 index1 (s1.m_collArray index1 &&& bnot (shl1 index0))

/-- `CPhysicsCollisionSet::ShouldCollide`. -/
def ShouldCollide (s : CPhysicsCollisionSet) (index0 index1 : Int) : Bool :=
  if guard s index0 index1 then true
  else decide ((shl1 index1 &&& s.m_collArray index0) ≠ 0)

/-- `CreateCollisionSet` followed by a fill of every word with `w` (the constructor itself leaves
the words uninitialised). -/
def filled (maxElements : Int) (w : Nat) : CPhysicsCollisionSet :=
  { m_iMaxEntries := maxElements, m_collArray := fun _ => w }

end CollisionSet

/-! ## Part 2: vectors, transforms and the engine body used by `CPhysicsObject` -/

namespace PhysicsObject

/-- A three-component vector (`btVector3`, `Vector`, `AngularImpulse`, `QAngle`). -/
structure Vec3 where
  x : ℚ
  y : ℚ
  z : ℚ
deriving DecidableEq

namespace Vec3

def zero : Vec3 := { x := 0, y := 0, z := 0 }

def add (a b : Vec3) : Vec3 := { x := a.x + b.x, y := a.y + b.y, z := a.z + b.z }

def sub (a b : Vec3) : Vec3 := { x := a.x - b.x, y := a.y - b.y, z := a.z - b.z }

def neg (a : Vec3) : Vec3 := { x := -a.x, y := -a.y, z := -a.z }

/-- Product with a scalar (`v * s`, `v *= s`). -/
def scale (a : Vec3) (s : ℚ) : Vec3 := { x := a.x * s, y := a.y * s, z := a.z * s }

/-- Component-wise product (`btVector3 * btVector3`). -/
def mul (a b : Vec3) : Vec3 := { x := a.x * b.x, y := a.y * b.y, z := a.z * b.z }

def dot (a b : Vec3) : ℚ := a.x * b.x + a.y * b.y + a.z * b.z

/-- The product `a.cross(b)`. -/
def cross (a b : Vec3) : Vec3 :=
  { x := a.y * b.z - a.z * b.y, y := a.z * b.x - a.x * b.z, z := a.x * b.y - a.y * b.x }

/-- The vector `a.absolute()`. -/
def absolute (a : Vec3) : Vec3 := { x := |a.x|, y := |a.y|, z := |a.z| }

end Vec3

/-- A 3×3 matrix (`btMatrix3x3`), by rows. -/
structure Mat3 where
  r0 : Vec3
  r1 : Vec3
  r2 : Vec3
deriving DecidableEq

namespace Mat3

def identity : Mat3 :=
  { r0 := { x := 1, y := 0, z := 0 }, r1 := { x := 0, y := 1, z := 0 },
    r2 := { x := 0, y := 0, z := 1 } }

/-- The product `m * v`. -/
def mulVec (m : Mat3) (v : Vec3) : Vec3 :=
  { x := m.r0.dot v, y := m.r1.dot v, z := m.r2.dot v }

def transpose (m : Mat3) : Mat3 :=
  { r0 := { x := m.r0.x, y := m.r1.x, z := m.r2.x },
    r1 := { x := m.r0.y, y := m.r1.y, z := m.r2.y },
    r2 := { x := m.r0.z, y := m.r1.z, z := m.r2.z } }

/-- The product `a * b`. -/
def mul (a b : Mat3) : Mat3 :=
  let bt := b.transpose
  { r0 := { x := a.r0.dot bt.r0, y := a.r0.dot bt.r1, z := a.r0.dot bt.r2 },
    r1 := { x := a.r1.dot bt.r0, y := a.r1.dot bt.r1, z := a.r1.dot bt.r2 },
    r2 := { x := a.r2.dot bt.r0, y := a.r2.dot bt.r1, z := a.r2.dot bt.r2 } }

end Mat3

/-- A rigid transform (`btTransform`; also used for the client's `matrix3x4_t`). -/
structure btTransform where
  basis : Mat3
  origin : Vec3
deriving DecidableEq

namespace btTransform

def identity : btTransform := { basis := Mat3.identity, origin := Vec3.zero }

/-- The product `a * b` of Bullet: first `b`, then `a`. -/
def mul (a b : btTransform) : btTransform :=
  { basis := a.basis.mul b.basis, origin := (a.basis.mulVec b.origin).add a.origin }

/-- The transform `t.inverse()` of Bullet: transposed basis, origin `basisᵀ * (-origin)`. -/
def inverse (t : btTransform) : btTransform :=
  { basis := t.basis.transpose, origin := t.basis.transpose.mulVec t.origin.neg }

end btTransform

/-- Bit complement of a 32-bit pattern (`~w` on an `int` or `unsigned int`). -/
def bnot32 (w : Nat) : Nat := 2 ^ 32 - 1 - w % 2 ^ 32

/-- Truncation of a value to `unsigned short`. -/
def toUShort (w : Nat) : Nat := w % 2 ^ 16

/-- Modelled from the spec: the macro `SAFE_DIVIDE` (its header is not among the sources), "a
division that returns zero instead of raising an error or producing infinity/NaN when the
denominator is zero". -/
def SAFE_DIVIDE (a b : ℚ) : ℚ := if b = 0 then 0 else a / b

/-- Modelled from the spec: `BtMatrix_vimult` (its header is not among the sources), which
rotates a direction "into body-local space via the current orientation": the product with the
transposed orientation matrix. -/
def BtMatrix_vimult (mat : Mat3) (dir : Vec3) : Vec3 := mat.transpose.mulVec dir

/-! ### Constants of the engine (Bullet) -/

def CF_STATIC_OBJECT : Nat := 1
def CF_KINEMATIC_OBJECT : Nat := 2
def CF_NO_CONTACT_RESPONSE : Nat := 4
def BT_DISABLE_WORLD_GRAVITY : Nat := 1
def ACTIVE_TAG : Int := 1
def ISLAND_SLEEPING : Int := 2
def DISABLE_DEACTIVATION : Int := 4
def DISABLE_SIMULATION : Int := 5

/-- A collision shape, as far as the object wrapper looks at it: its axis-aligned bounding box
under the identity transform (`getAabb(btTransform::getIdentity(), min, max)`). -/
structure btCollisionShape where
  aabbMin : Vec3
  aabbMax : Vec3
deriving DecidableEq

/-- The engine's rigid body (`btRigidBody` with its `btMassCenterMotionState`). -/
structure btRigidBody where
  m_collisionFlags : Nat
  m_rigidbodyFlags : Nat
  m_activationState1 : Int
  m_deactivationTime : ℚ
  m_worldTransform : btTransform
  m_centerOfMassOffset : btTransform
  m_collisionShape : Option btCollisionShape
  m_userPointer : Option Nat
  m_linearVelocity : Vec3
  m_angularVelocity : Vec3
  m_linearFactor : Vec3
  m_angularFactor : Vec3
  m_inverseMass : ℚ
  m_invMass : Vec3
  m_gravity : Vec3
  m_gravity_acceleration : Vec3
  m_invInertiaLocal : Vec3
  m_invInertiaTensorWorld : Mat3
  m_friction : ℚ
  m_restitution : ℚ
  m_linearSleepingThreshold : ℚ
  m_angularSleepingThreshold : ℚ
  m_ccdMotionThreshold : ℚ
  m_ccdSweptSphereRadius : ℚ
  /-- Stands for the address of the body, by which pointers to collision objects are compared. -/
  address : Nat := 0
deriving DecidableEq

namespace btRigidBody

/-- Bullet's `btCollisionObject::setActivationState`: a body whose deactivation or simulation is
disabled keeps its state. -/
def setActivationState (b : btRigidBody) (newState : Int) : btRigidBody :=
  if b.m_activationState1 ≠ DISABLE_DEACTIVATION ∧ b.m_activationState1 ≠ DISABLE_SIMULATION then
    { b with m_activationState1 := newState }
  else b

/-- Bullet's `btCollisionObject::activate()` (without forced activation). -/
def activate (b : btRigidBody) : btRigidBody :=
  if b.m_collisionFlags &&& (CF_STATIC_OBJECT ||| CF_KINEMATIC_OBJECT) = 0 then
    { b.setActivationState ACTIVE_TAG with m_deactivationTime := 0 }
  else b

/-- Bullet's `btRigidBody::setGravity`. -/
def setGravity (b : btRigidBody) (acceleration : Vec3) : btRigidBody :=
  { b with
    m_gravity := if b.m_inverseMass ≠ 0 then acceleration.scale (1 / b.m_inverseMass)
      else b.m_gravity
    m_gravity_acceleration := acceleration }

/-- Bullet's `btRigidBody::setLinearFactor`. -/
def setLinearFactor (b : btRigidBody) (f : Vec3) : btRigidBody :=
  { b with m_linearFactor := f, m_invMass := f.scale b.m_inverseMass }

/-- Bullet's `btRigidBody::setAngularFactor(btScalar)`. -/
def setAngularFactor (b : btRigidBody) (f : ℚ) : btRigidBody :=
  { b with m_angularFactor := { x := f, y := f, z := f } }

/-- Bullet's `btRigidBody::setMassProps`. The reciprocals are exact here, while the engine
divides in `float`: the model gives the values of the inverse mass and of the inverse inertia
up to that rounding only, and no statement below depends on their digits. -/
def setMassProps (b : btRigidBody) (mass : ℚ) (inertia : Vec3) : btRigidBody :=
  let flags := if mass = 0 then b.m_collisionFlags ||| CF_STATIC_OBJECT
    else b.m_collisionFlags &&& bnot32 CF_STATIC_OBJECT
  let inv : ℚ := if mass = 0 then 0 else 1 / mass
  { b with
    m_collisionFlags := flags
    m_inverseMass := inv
    m_gravity := b.m_gravity_acceleration.scale mass
    m_invInertiaLocal :=
      { x := if inertia.x ≠ 0 then 1 / inertia.x else 0
        y := if inertia.y ≠ 0 then 1 / inertia.y else 0
        z := if inertia.z ≠ 0 then 1 / inertia.z else 0 }
    m_invMass := b.m_linearFactor.scale inv }

/-- Bullet's `btRigidBody::applyCentralImpulse`. -/
def applyCentralImpulse (b : btRigidBody) (impulse : Vec3) : btRigidBody :=
  { b with
    m_linearVelocity := b.m_linearVelocity.add ((impulse.mul b.m_linearFactor).scale b.m_inverseMass) }

/-- Bullet's `btRigidBody::applyTorqueImpulse`. -/
def applyTorqueImpulse (b : btRigidBody) (torque : Vec3) : btRigidBody :=
  { b with
    m_angularVelocity :=
      b.m_angularVelocity.add ((b.m_invInertiaTensorWorld.mulVec torque).mul b.m_angularFactor) }

/-- Bullet's `btRigidBody::applyImpulse`. Its inner test `if (m_angularFactor)` converts the
vector to a pointer to its components, which is never null. -/
def applyImpulse (b : btRigidBody) (impulse rel_pos : Vec3) : btRigidBody :=
  if b.m_inverseMass ≠ 0 then
    let b1 := b.applyCentralImpulse impulse
    b1.applyTorqueImpulse (rel_pos.cross (impulse.mul b1.m_linearFactor))
  else b

end btRigidBody

/-! ## Part 3: what `CPhysicsObject` takes from headers that are not among the sources -/

/-- The unit and axis conversions of `convert.h`, and the client's `DEG2RAD`. -/
structure Convert where
  ConvertPosToBull : Vec3 → Vec3
  ConvertPosToHL : Vec3 → Vec3
  ConvertDirectionToBull : Vec3 → Vec3
  ConvertDirectionToHL : Vec3 → Vec3
  ConvertForceImpulseToBull : Vec3 → Vec3
  ConvertForceImpulseToHL : Vec3 → Vec3
  ConvertAngularImpulseToBull : Vec3 → Vec3
  ConvertAngularImpulseToHL : Vec3 → Vec3
  ConvertRotationToHL : Mat3 → Vec3
  ConvertMatrixToHL : btTransform → btTransform
  DEG2RAD : ℚ → ℚ

/-- A converter for evaluation on concrete inputs: unit scale and no change of axes for
positions, directions, impulses and matrices. Its rotation-to-angles conversion is a placeholder
(zero angles) that no statement evaluated with it depends on. -/
def unitConvert : Convert :=
  { ConvertPosToBull := id, ConvertPosToHL := id
    ConvertDirectionToBull := id, ConvertDirectionToHL := id
    ConvertForceImpulseToBull := id, ConvertForceImpulseToHL := id
    ConvertAngularImpulseToBull := id, ConvertAngularImpulseToHL := id
    ConvertRotationToHL := fun _ => Vec3.zero
    ConvertMatrixToHL := id
    DEG2RAD := id }

/-- The constants that `Physics_Object.cpp` takes from the client interface headers. -/
structure Consts where
  CALLBACK_GLOBAL_COLLISION : Nat
  CALLBACK_GLOBAL_FRICTION : Nat
  CALLBACK_GLOBAL_TOUCH : Nat
  CALLBACK_SHADOW_COLLISION : Nat
  CALLBACK_GLOBAL_COLLIDE_STATIC : Nat
  CALLBACK_FLUID_TOUCH : Nat
  CALLBACK_DO_FLUID_SIMULATION : Nat
  COLGROUP_WORLD : Int
  MASK_SOLID : Nat
  SLEEP_LINEAR_THRESHOLD : ℚ
  SLEEP_ANGULAR_THRESHOLD : ℚ
  CUBIC_METERS_PER_CUBIC_INCH : ℚ

/-- The callback bits as the client's physics interface header numbers them
(`0x0001, 0x0002, 0x0004, 0x0010, 0x0020, 0x0100, 0x1000`); the other constants are placeholders
for values no statement below depends on. -/
def sdkConsts : Consts :=
  { CALLBACK_GLOBAL_COLLISION := 0x0001
    CALLBACK_GLOBAL_FRICTION := 0x0002
    CALLBACK_GLOBAL_TOUCH := 0x0004
    CALLBACK_SHADOW_COLLISION := 0x0010
    CALLBACK_GLOBAL_COLLIDE_STATIC := 0x0020
    CALLBACK_FLUID_TOUCH := 0x0100
    CALLBACK_DO_FLUID_SIMULATION := 0x1000
    COLGROUP_WORLD := 1
    MASK_SOLID := 1
    SLEEP_LINEAR_THRESHOLD := 1
    SLEEP_ANGULAR_THRESHOLD := 1
    CUBIC_METERS_PER_CUBIC_INCH := 1 }

/-- The physics part of a `surfacedata_t`. -/
structure surfacephysicsparams_t where
  friction : ℚ
  elasticity : ℚ
  density : ℚ
deriving DecidableEq

/-- The creation parameters `objectparams_t`, as far as `Init` reads them. -/
structure objectparams_t where
  mass : ℚ
  volume : ℚ
  dragCoefficient : ℚ
  enableCollisions : Bool
  pGameData : Option Nat
  pName : Option String
deriving DecidableEq

/-- Modelled from the spec: the shadow controller `CShadowController`, of which only the class
declaration is among the sources; its setters are "simple setters" of the speed clamps and of
the `allowTranslation` / `allowRotation` flags. -/
structure CShadowController where
  maxSpeed : ℚ
  maxAngularSpeed : ℚ
  allowTranslation : Bool
  allowRotation : Bool
deriving DecidableEq

/-- The sensor body of trigger mode (`btGhostObject`). -/
structure btGhostObject where
  m_collisionShape : Option btCollisionShape
  m_userPointer : Option Nat
  m_collisionFlags : Nat
  m_worldTransform : btTransform
  m_callback : Bool
deriving DecidableEq

/-- A freshly constructed `btGhostObject`: Bullet's collision objects start with the static flag
and the identity transform. -/
def btGhostObject.new : btGhostObject :=
  { m_collisionShape := none, m_userPointer := none, m_collisionFlags := CF_STATIC_OBJECT
    m_worldTransform := btTransform.identity, m_callback := false }

/-- A collision object as a broadphase proxy or a contact manifold points to it: its address
and its user pointer (the owning `CPhysicsObject`, possibly null). -/
structure btCollisionObjectRef where
  address : Nat
  m_userPointer : Option Nat
deriving DecidableEq

/-- A broadphase proxy (`btBroadphaseProxy`) with its client object. -/
structure btBroadphaseProxy where
  m_uniqueId : Nat
  m_clientObject : btCollisionObjectRef
deriving DecidableEq

/-- An overlapping pair of the broadphase (`btBroadphasePair`). -/
structure btBroadphasePair where
  m_pProxy0 : btBroadphaseProxy
  m_pProxy1 : btBroadphaseProxy
deriving DecidableEq

/-- A contact point of a manifold (`btManifoldPoint`). -/
structure btManifoldPoint where
  m_positionWorldOnA : Vec3
  m_positionWorldOnB : Vec3
deriving DecidableEq

/-- A contact manifold (`btPersistentManifold`): its two bodies, the number of cached contact
points and the first slot of the point cache. -/
structure btPersistentManifold where
  m_body0 : btCollisionObjectRef
  m_body1 : btCollisionObjectRef
  m_cachedPoints : Int
  m_pointCache0 : btManifoldPoint
deriving DecidableEq

/-- The environment, as far as one object reaches into it: the dynamics world's gravity, whether
and with which collision filter (`none`: the engine's default, `some (group, mask)`: explicit)
the object's rigid body and its ghost are in the world, the drag controller's registrations, the
broadphase's overlapping-pair cache and the dispatcher's contact manifolds.

Modelled from the spec: the drag controller (`Physics_DragController.h` is not among the
sources) is the set of its registered objects; `AddPhysicsObject` registers, `RemovePhysicsObject`
"removes drag-controller registration", `IsControlling` tests it. -/
structure CPhysicsEnvironment where
  m_gravity : Vec3
  rigidBodyInWorld : Option (Option (Int × Int))
  ghostInWorld : Option (Int × Int)
  dragController : List Nat
  pairCache : List btBroadphasePair := []
  manifolds : List btPersistentManifold := []
deriving DecidableEq

/-- State of a `CPhysicsObject` together with the engine body and the environment it points to.
`self` stands for the address `this`. -/
structure CPhysicsObject where
  self : Nat
  m_pEnv : CPhysicsEnvironment
  m_pObject : btRigidBody
  m_pGameData : Option Nat
  m_pName : Option String
  m_contents : Nat
  m_iGameIndex : Nat
  m_gameFlags : Nat
  m_callbacks : Nat
  m_materialIndex : Int
  m_iLastActivationState : Int
  m_bMotionEnabled : Bool
  m_bIsSphere : Bool
  m_bRemoving : Bool
  m_fMass : ℚ
  m_fVolume : ℚ
  m_fBuoyancyRatio : ℚ
  m_dragCoefficient : ℚ
  m_angDragCoefficient : ℚ
  m_dragBasis : Vec3
  m_angDragBasis : Vec3
  m_pShadow : Option CShadowController
  m_pFluidController : Option Nat
  m_pGhostObject : Option btGhostObject
  m_pGhostCallback : Bool
deriving DecidableEq

/-! ## Part 4: the member functions of `CPhysicsObject` -/

/-- Modelled from the spec: `CDragController::IsControlling`. -/
def dragIsControlling (e : CPhysicsEnvironment) (obj : Nat) : Bool := decide (obj ∈ e.dragController)

/-- Modelled from the spec: `CDragController::AddPhysicsObject`. -/
def dragAddPhysicsObject (e : CPhysicsEnvironment) (obj : Nat) : CPhysicsEnvironment :=
  if obj ∈ e.dragController then e else { e with dragController := e.dragController ++ [obj] }

/-- Modelled from the spec: `CDragController::RemovePhysicsObject`. -/
def dragRemovePhysicsObject (e : CPhysicsEnvironment) (obj : Nat) : CPhysicsEnvironment :=
  { e with dragController := e.dragController.filter (fun n => decide (n ≠ obj)) }

/-- Bullet's `btDiscreteDynamicsWorld::addRigidBody`, with (`some (group, mask)`) or without
(`none`) a collision filter: a dynamic body that takes world gravity receives it, a static body
is put to sleep, and a body with a shape enters the world. -/
def addRigidBody (e : CPhysicsEnvironment) (b : btRigidBody) (filter : Option (Int × Int)) :
    CPhysicsEnvironment × btRigidBody :=
  let b1 :=
    if b.m_collisionFlags &&& (CF_STATIC_OBJECT ||| CF_KINEMATIC_OBJECT) = 0 ∧
        b.m_rigidbodyFlags &&& BT_DISABLE_WORLD_GRAVITY = 0 then b.setGravity e.m_gravity
    else b
  match b1.m_collisionShape with
  | none => (e, b1)
  | some _ =>
    let b2 :=
      if b1.m_collisionFlags &&& CF_STATIC_OBJECT = 0 then b1
      else b1.setActivationState ISLAND_SLEEPING
    ({ e with rigidBodyInWorld := some filter }, b2)

/-- Bullet's `btDiscreteDynamicsWorld::removeRigidBody`. -/
def removeRigidBody (e : CPhysicsEnvironment) : CPhysicsEnvironment :=
  { e with rigidBodyInWorld := none }

namespace CPhysicsObject

/-- `CPhysicsObject::IsStatic`. -/
def IsStatic (o : CPhysicsObject) : Bool :=
  decide (o.m_pObject.m_collisionFlags &&& CF_STATIC_OBJECT ≠ 0)

/-- `CPhysicsObject::IsMotionEnabled`. -/
def IsMotionEnabled (o : CPhysicsObject) : Bool := o.m_bMotionEnabled

/-- `CPhysicsObject::IsMoveable`. -/
def IsMoveable (o : CPhysicsObject) : Bool :=
  if o.IsStatic || !o.IsMotionEnabled then false else true

/-- `CPhysicsObject::IsCollisionEnabled`. -/
def IsCollisionEnabled (o : CPhysicsObject) : Bool :=
  !decide (o.m_pObject.m_collisionFlags &&& CF_NO_CONTACT_RESPONSE ≠ 0)

/-- `CPhysicsObject::IsGravityEnabled`. -/
def IsGravityEnabled (o : CPhysicsObject) : Bool :=
  if !o.IsStatic then !decide (o.m_pObject.m_rigidbodyFlags &&& BT_DISABLE_WORLD_GRAVITY ≠ 0)
  else false

/-- `CPhysicsObject::IsDragEnabled`. -/
def IsDragEnabled (o : CPhysicsObject) : Bool :=
  if !o.IsStatic then dragIsControlling o.m_pEnv o.self else false

/-- `CPhysicsObject::EnableCollisions`. -/
def EnableCollisions (o : CPhysicsObject) (enable : Bool) : CPhysicsObject :=
  if o.IsCollisionEnabled = enable then o
  else if enable then
    { o with m_pObject := { o.m_pObject with
        m_collisionFlags := o.m_pObject.m_collisionFlags &&& bnot32 CF_NO_CONTACT_RESPONSE } }
  else
    { o with m_pObject := { o.m_pObject with
        m_collisionFlags := o.m_pObject.m_collisionFlags ||| CF_NO_CONTACT_RESPONSE } }

/-- `CPhysicsObject::EnableGravity`. -/
def EnableGravity (o : CPhysicsObject) (enable : Bool) : CPhysicsObject :=
  if o.IsGravityEnabled = enable || o.IsStatic then o
  else if enable then
    let b := o.m_pObject.setGravity o.m_pEnv.m_gravity
    { o with m_pObject := { b with
        m_rigidbodyFlags := b.m_rigidbodyFlags &&& bnot32 BT_DISABLE_WORLD_GRAVITY } }
  else
    let b := o.m_pObject.setGravity Vec3.zero
    { o with m_pObject := { b with
        m_rigidbodyFlags := b.m_rigidbodyFlags ||| BT_DISABLE_WORLD_GRAVITY } }

/-- `CPhysicsObject::EnableDrag`. -/
def EnableDrag (o : CPhysicsObject) (enable : Bool) : CPhysicsObject :=
  if o.IsStatic || enable = o.IsDragEnabled then o
  else if enable then { o with m_pEnv := dragAddPhysicsObject o.m_pEnv o.self }
  else { o with m_pEnv := dragRemovePhysicsObject o.m_pEnv o.self }

/-- `CPhysicsObject::EnableMotion`. -/
def EnableMotion (o : CPhysicsObject) (enable : Bool) : CPhysicsObject :=
  if o.IsMotionEnabled = enable || o.IsStatic then o
  else
    let o1 := { o with m_bMotionEnabled := enable }
    if enable then
      { o1 with m_pObject :=
          (o1.m_pObject.setLinearFactor { x := 1, y := 1, z := 1 }).setAngularFactor 1 }
    else
      let b := { o1.m_pObject with m_linearVelocity := Vec3.zero, m_angularVelocity := Vec3.zero }
      { o1 with m_pObject := (b.setLinearFactor Vec3.zero).setAngularFactor 0 }

/-- `CPhysicsObject::SetCallbackFlags`. -/
def SetCallbackFlags (o : CPhysicsObject) (callbackflags : Nat) : CPhysicsObject :=
  { o with m_callbacks := toUShort callbackflags }

/-- `CPhysicsObject::GetCallbackFlags`. -/
def GetCallbackFlags (o : CPhysicsObject) : Nat := o.m_callbacks

/-- `CPhysicsObject::AddCallbackFlags`. -/
def AddCallbackFlags (o : CPhysicsObject) (flags : Nat) : CPhysicsObject :=
  { o with m_callbacks := toUShort (o.m_callbacks ||| toUShort flags) }

/-- `CPhysicsObject::RemoveCallbackFlags`. -/
def RemoveCallbackFlags (o : CPhysicsObject) (flags : Nat) : CPhysicsObject :=
  { o with m_callbacks := toUShort (o.m_callbacks &&& bnot32 (toUShort flags)) }

/-- `CPhysicsObject::Wake`. -/
def Wake (o : CPhysicsObject) : CPhysicsObject :=
  if o.IsStatic then o else { o with m_pObject := o.m_pObject.setActivationState ACTIVE_TAG }

/-- `CPhysicsObject::Sleep`. -/
def Sleep (o : CPhysicsObject) : CPhysicsObject :=
  if o.IsStatic then o else { o with m_pObject := o.m_pObject.setActivationState ISLAND_SLEEPING }

/-- `CPhysicsObject::SetMass`. The quotients `SAFE_DIVIDE(1.0, x)` are exact here, while the
program divides in `double` and narrows the result to `float`: the inertia handed to the engine
is modelled up to that rounding only, and no statement below depends on its digits. -/
def SetMass (o : CPhysicsObject) (mass : ℚ) : CPhysicsObject :=
  if o.IsStatic then o
  else
    let o1 := { o with m_fMass := mass }
    let inv := o1.m_pObject.m_invInertiaLocal
    let inertia : Vec3 :=
      { x := SAFE_DIVIDE 1 inv.x, y := SAFE_DIVIDE 1 inv.y, z := SAFE_DIVIDE 1 inv.z }
    { o1 with m_pObject := o1.m_pObject.setMassProps mass inertia }

/-- `CPhysicsObject::GetMass`. -/
def GetMass (o : CPhysicsObject) : ℚ := o.m_fMass

/-- `CPhysicsObject::GetInvMass`. -/
def GetInvMass (o : CPhysicsObject) : ℚ := SAFE_DIVIDE 1 o.m_fMass

/-- `CPhysicsObject::SetMaterialIndex`, over the surface table `g_SurfaceDatabase`. -/
def SetMaterialIndex (db : Int → Option surfacephysicsparams_t) (o : CPhysicsObject)
    (materialIndex : Int) : CPhysicsObject :=
  match db materialIndex with
  | some pSurface =>
    { o with
      m_materialIndex := materialIndex
      m_pObject := { o.m_pObject with
        m_friction := pSurface.friction
        m_restitution := min pSurface.elasticity 1 }
      m_fBuoyancyRatio := SAFE_DIVIDE (SAFE_DIVIDE o.m_fMass o.m_fVolume) pSurface.density }
  | none => o

/-- `CPhysicsObject::SetContents`. -/
def SetContents (o : CPhysicsObject) (contents : Nat) : CPhysicsObject :=
  { o with m_contents := contents % 2 ^ 32 }

/-- `CPhysicsObject::GetCollide`: the shape pointer, possibly null. -/
def GetCollide (o : CPhysicsObject) : Option btCollisionShape := o.m_pObject.m_collisionShape

/-- `CPhysicsObject::GetPosition`; `wantPosition`, `wantAngles`: the output pointer is not
null. -/
def GetPosition (cv : Convert) (o : CPhysicsObject) (wantPosition wantAngles : Bool) :
    Option Vec3 × Option Vec3 :=
  if !wantPosition && !wantAngles then (none, none)
  else
    let transform := o.m_pObject.m_worldTransform.mul o.m_pObject.m_centerOfMassOffset.inverse
    (if wantPosition then some (cv.ConvertPosToHL transform.origin) else none,
     if wantAngles then some (cv.ConvertRotationToHL transform.basis) else none)

/-- `CPhysicsObject::GetPositionMatrix` with a non-null output. -/
def GetPositionMatrix (cv : Convert) (o : CPhysicsObject) : btTransform :=
  cv.ConvertMatrixToHL (o.m_pObject.m_worldTransform.mul o.m_pObject.m_centerOfMassOffset.inverse)

/-- The client math library's `VectorITransform`: the inverse of a rotation-and-translation
matrix applied to a point. -/
def VectorITransform (in1 : Vec3) (m : btTransform) : Vec3 :=
  m.basis.transpose.mulVec (in1.sub m.origin)

/-- `CPhysicsObject::WorldToLocal` with a non-null output. -/
def WorldToLocal (cv : Convert) (o : CPhysicsObject) (worldPosition : Vec3) : Vec3 :=
  VectorITransform worldPosition (o.GetPositionMatrix cv)

/-- `CPhysicsObject::SetVelocity`; a null pointer argument is `none`. -/
def SetVelocity (cv : Convert) (o : CPhysicsObject) (velocity angularVelocity : Option Vec3) :
    CPhysicsObject :=
  if velocity.isNone && angularVelocity.isNone then o
  else if !o.IsMoveable || !o.IsMotionEnabled then o
  else
    let o1 := o.Wake
    let o2 :=
      match velocity with
      | some v => { o1 with m_pObject := { o1.m_pObject with
          m_linearVelocity := cv.ConvertPosToBull v } }
      | none => o1
    match angularVelocity with
    | some w =>
      { o2 with m_pObject := { o2.m_pObject with
          m_angularVelocity :=
            o2.m_pObject.m_worldTransform.basis.mulVec (cv.ConvertAngularImpulseToBull w) } }
    | none => o2

/-- `CPhysicsObject::AddVelocity`; a null pointer argument is `none`. -/
def AddVelocity (cv : Convert) (o : CPhysicsObject) (velocity angularVelocity : Option Vec3) :
    CPhysicsObject :=
  if velocity.isNone && angularVelocity.isNone then o
  else if !o.IsMoveable || !o.IsMotionEnabled then o
  else
    let o1 := o.Wake
    let o2 :=
      match velocity with
      | some v => { o1 with m_pObject := { o1.m_pObject with
          m_linearVelocity := o1.m_pObject.m_linearVelocity.add (cv.ConvertPosToBull v) } }
      | none => o1
    match angularVelocity with
    | some w =>
      { o2 with m_pObject := { o2.m_pObject with
          m_angularVelocity := o2.m_pObject.m_angularVelocity.add
            (o2.m_pObject.m_worldTransform.basis.mulVec (cv.ConvertAngularImpulseToBull w)) } }
    | none => o2

/-- `CPhysicsObject::ApplyForceCenter`. -/
def ApplyForceCenter (cv : Convert) (o : CPhysicsObject) (forceVector : Vec3) : CPhysicsObject :=
  if !o.IsMoveable || !o.IsMotionEnabled then o
  else
    let o1 := o.Wake
    { o1 with m_pObject := o1.m_pObject.applyCentralImpulse (cv.ConvertForceImpulseToBull forceVector) }

/-- `CPhysicsObject::ApplyForceOffset`. -/
def ApplyForceOffset (cv : Convert) (o : CPhysicsObject) (forceVector worldPosition : Vec3) :
    CPhysicsObject :=
  if !o.IsMoveable || !o.IsMotionEnabled then o
  else
    let o1 := o.Wake
    let local1 := o1.WorldToLocal cv worldPosition
    let o2 := { o1 with m_pObject :=
      o1.m_pObject.applyImpulse (cv.ConvertForceImpulseToBull forceVector) (cv.ConvertPosToBull local1) }
    o2.Wake

/-- `CPhysicsObject::ApplyTorqueCenter`. -/
def ApplyTorqueCenter (cv : Convert) (o : CPhysicsObject) (torque : Vec3) : CPhysicsObject :=
  if !o.IsMoveable || !o.IsMotionEnabled then o
  else
    let o1 := o.Wake
    { o1 with m_pObject := o1.m_pObject.applyTorqueImpulse (cv.ConvertAngularImpulseToBull torque) }

/-- `CPhysicsObject::CalculateForceOffset`, a `const` member: the pair of values written to
`centerForce` and `centerTorque` (`none` for a null output pointer). -/
def CalculateForceOffset (cv : Convert) (o : CPhysicsObject) (forceVector worldPosition : Vec3)
    (wantForce wantTorque : Bool) : Option Vec3 × Option Vec3 :=
  if !wantForce && !wantTorque then (none, none)
  else
    let force := cv.ConvertForceImpulseToBull forceVector
    let pos := (cv.ConvertPosToBull worldPosition).sub o.m_pObject.m_worldTransform.origin
    let cross := pos.cross force
    (if wantForce then some (cv.ConvertForceImpulseToHL force) else none,
     if wantTorque then some (cv.ConvertAngularImpulseToHL cross) else none)

/-- `CPhysicsObject::CalculateVelocityOffset`, a `const` member: the pair of values written to
`centerVelocity` and `centerAngularVelocity`. -/
def CalculateVelocityOffset (cv : Convert) (o : CPhysicsObject) (forceVector worldPosition : Vec3)
    (wantVelocity wantAngular : Bool) : Option Vec3 × Option Vec3 :=
  if !wantVelocity && !wantAngular then (none, none)
  else
    let force := cv.ConvertForceImpulseToBull forceVector
    let pos := (cv.ConvertPosToBull worldPosition).sub o.m_pObject.m_worldTransform.origin
    let cross := pos.cross force
    (if wantVelocity then some (cv.ConvertForceImpulseToHL (force.scale o.m_pObject.m_inverseMass))
      else none,
     if wantAngular then some (cv.ConvertAngularImpulseToHL cross) else none)

/-- `CPhysicsObject::GetDragInDirection`. -/
def GetDragInDirection (o : CPhysicsObject) (dir : Vec3) : ℚ :=
  let out := BtMatrix_vimult o.m_pObject.m_worldTransform.basis dir
  o.m_dragCoefficient * |out.x * o.m_dragBasis.x| +
    |out.y * o.m_dragBasis.y| +
    |out.z * o.m_dragBasis.z|

/-- `CPhysicsObject::GetAngularDragInDirection`. -/
def GetAngularDragInDirection (o : CPhysicsObject) (dir : Vec3) : ℚ :=
  o.m_angDragCoefficient * |dir.x * o.m_angDragBasis.x| +
    |dir.y * o.m_angDragBasis.y| +
    |dir.z * o.m_angDragBasis.z|

/-- `CPhysicsObject::CalculateLinearDrag`. -/
def CalculateLinearDrag (cv : Convert) (o : CPhysicsObject) (unitDirection : Vec3) : ℚ :=
  o.GetDragInDirection (cv.ConvertDirectionToBull unitDirection)

/-- `CPhysicsObject::CalculateAngularDrag`. -/
def CalculateAngularDrag (cv : Convert) (o : CPhysicsObject) (objectSpaceRotationAxis : Vec3) : ℚ :=
  cv.DEG2RAD (o.GetAngularDragInDirection (cv.ConvertDirectionToBull objectSpaceRotationAxis))

/-- `CPhysicsObject::ComputeDragBasis`; `AngDragIntegral` is the helper of `miscmath.h`. -/
def ComputeDragBasis (AngDragIntegral : ℚ → ℚ → ℚ → ℚ → ℚ) (o : CPhysicsObject)
    (isStatic : Bool) : CPhysicsObject :=
  let o1 := { o with m_dragBasis := Vec3.zero, m_angDragBasis := Vec3.zero }
  match o1.GetCollide with
  | none => o1
  | some shape =>
    if isStatic then o1
    else
      let delta := (shape.aabbMax.sub shape.aabbMin).absolute
      let basis : Vec3 :=
        { x := delta.y * delta.z, y := delta.x * delta.z, z := delta.x * delta.y }
      let o2 := { o1 with m_dragBasis := basis.scale o1.GetInvMass }
      let ang := o2.m_pObject.m_invInertiaLocal
      let d := delta.scale (1 / 2)
      { o2 with m_angDragBasis :=
          { x := AngDragIntegral ang.x d.x d.y d.z + AngDragIntegral ang.x d.x d.z d.y
            y := AngDragIntegral ang.y d.y d.x d.z + AngDragIntegral ang.y d.y d.z d.x
            z := AngDragIntegral ang.z d.z d.x d.y + AngDragIntegral ang.z d.z d.y d.x } }

/-- `CPhysicsObject::SetShadow`. The environment's `CreateShadowController` is taken to hand out
a controller with the two permissions it is given. -/
def SetShadow (K : Consts) (o : CPhysicsObject) (maxSpeed maxAngularSpeed : ℚ)
    (allowPhysicsMovement allowPhysicsRotation : Bool) : CPhysicsObject :=
  match o.m_pShadow with
  | some sh =>
    let sh1 : CShadowController :=
      { sh with maxSpeed := maxSpeed, maxAngularSpeed := maxAngularSpeed,
                allowTranslation := allowPhysicsMovement, allowRotation := allowPhysicsRotation }
    { o with m_pShadow := some sh1 }
  | none =>
    let flags0 := (o.GetCallbackFlags ||| K.CALLBACK_SHADOW_COLLISION) % 2 ^ 32
    let flags1 := flags0 &&& bnot32 K.CALLBACK_GLOBAL_FRICTION
    let flags2 := flags1 &&& bnot32 K.CALLBACK_GLOBAL_COLLIDE_STATIC
    let o1 := o.SetCallbackFlags flags2
    let sh1 : CShadowController :=
      { maxSpeed := maxSpeed, maxAngularSpeed := maxAngularSpeed,
        allowTranslation := allowPhysicsMovement, allowRotation := allowPhysicsRotation }
    { o1 with m_pShadow := some sh1 }

/-- `CPhysicsObject::RemoveShadowController`. The environment's `DestroyShadowController` frees
the controller. -/
def RemoveShadowController (K : Consts) (o : CPhysicsObject) : CPhysicsObject :=
  let o1 := o.RemoveCallbackFlags K.CALLBACK_SHADOW_COLLISION
  let o2 := o1.AddCallbackFlags (K.CALLBACK_GLOBAL_FRICTION ||| K.CALLBACK_GLOBAL_COLLIDE_STATIC)
  { o2 with m_pShadow := none }

/-- `CPhysicsObject::IsTrigger`. -/
def IsTrigger (o : CPhysicsObject) : Bool :=
  o.m_pGhostObject.isSome || o.m_pFluidController.isSome

/-- `CPhysicsObject::BecomeTrigger`. -/
def BecomeTrigger (K : Consts) (o : CPhysicsObject) : CPhysicsObject :=
  if o.IsTrigger then o
  else
    let o1 := o.EnableDrag false
    let o2 := o1.EnableGravity false
    let o3 := { o2 with m_pEnv := removeRigidBody o2.m_pEnv }
    let ghost : btGhostObject :=
      { btGhostObject.new with
        m_collisionShape := o3.m_pObject.m_collisionShape
        m_userPointer := some o3.self
        m_collisionFlags :=
          (btGhostObject.new.m_collisionFlags ||| CF_NO_CONTACT_RESPONSE) ||| CF_STATIC_OBJECT
        m_worldTransform := o3.m_pObject.m_worldTransform
        m_callback := true }
    { o3 with
      m_pGhostObject := some ghost
      m_pGhostCallback := true
      m_pEnv := { o3.m_pEnv with ghostInWorld := some (K.COLGROUP_WORLD, -K.COLGROUP_WORLD - 1) } }

/-- `CPhysicsObject::RemoveTrigger`; `none` when the function dereferences a null
`m_pGhostObject`. -/
def RemoveTrigger (K : Consts) (o : CPhysicsObject) : Option CPhysicsObject :=
  if !o.IsTrigger then some o
  else
    let o1 := o.EnableDrag true
    let o2 := o1.EnableGravity true
    match o2.m_pGhostObject with
    | none => none
    | some ghost =>
      let b := { o2.m_pObject with m_worldTransform := ghost.m_worldTransform }
      let added :=
        if o2.IsStatic then
          addRigidBody o2.m_pEnv b (some (K.COLGROUP_WORLD, -K.COLGROUP_WORLD - 1))
        else addRigidBody o2.m_pEnv b none
      some { o2 with
        m_pObject := added.2
        m_pEnv := { added.1 with ghostInWorld := none }
        m_pGhostCallback := false
        m_pGhostObject := none }

/-- `CPhysicsObject::Init`, run on an object `o` left by the constructor; `none` when the function
dereferences a null collision shape (a non-static body without shape). -/
def Init (K : Consts) (db : Int → Option surfacephysicsparams_t)
    (AngDragIntegral : ℚ → ℚ → ℚ → ℚ → ℚ) (o : CPhysicsObject) (pEnv : CPhysicsEnvironment)
    (pObject : btRigidBody) (materialIndex : Int) (pParams : Option objectparams_t)
    (isStatic isSphere : Bool) : Option CPhysicsObject :=
  let o1 : CPhysicsObject :=
    { o with
      m_pEnv := pEnv
      m_pObject := pObject
      m_bIsSphere := isSphere
      m_gameFlags := 0
      m_bMotionEnabled := !isStatic
      m_fMass := match pParams with
        | some p => if !isStatic then p.mass else 0
        | none => 0
      m_pGameData := none
      m_pName := none
      m_fVolume := 0
      m_callbacks := toUShort (K.CALLBACK_GLOBAL_COLLISION ||| K.CALLBACK_GLOBAL_FRICTION |||
        K.CALLBACK_FLUID_TOUCH ||| K.CALLBACK_GLOBAL_TOUCH ||| K.CALLBACK_GLOBAL_COLLIDE_STATIC |||
        K.CALLBACK_DO_FLUID_SIMULATION)
      m_iLastActivationState := -1 }
  let b1 : btRigidBody :=
    { o1.m_pObject with
      m_userPointer := some o1.self
      m_linearSleepingThreshold := K.SLEEP_LINEAR_THRESHOLD
      m_angularSleepingThreshold := K.SLEEP_ANGULAR_THRESHOLD }
  let o2 := { o1 with m_pObject := b1.setActivationState ISLAND_SLEEPING }
  let o3 :=
    match pParams with
    | some p =>
      let o2a : CPhysicsObject :=
        { o2 with m_pGameData := p.pGameData, m_pName := p.pName,
                  m_fVolume := p.volume * K.CUBIC_METERS_PER_CUBIC_INCH }
      o2a.EnableCollisions p.enableCollisions
    | none => o2
  let o4 := (o3.SetMaterialIndex db materialIndex).SetContents K.MASK_SOLID
  let drag0 : ℚ := match pParams with
    | some p => p.dragCoefficient
    | none => 0
  let drag : ℚ := if isStatic || o4.GetCollide.isNone then 0 else drag0
  let angDrag : ℚ := drag
  let o5 := o4.ComputeDragBasis AngDragIntegral isStatic
  let o6 := if !isStatic && decide (drag ≠ 0) then o5.EnableDrag true else o5
  let o7 := { o6 with m_dragCoefficient := drag, m_angDragCoefficient := angDrag }
  if isStatic then
    let b := { o7.m_pObject with
      m_collisionFlags := o7.m_pObject.m_collisionFlags ||| CF_STATIC_OBJECT }
    let added := addRigidBody o7.m_pEnv b (some (K.COLGROUP_WORLD, -K.COLGROUP_WORLD - 1))
    some { o7 with m_pObject := added.2, m_pEnv := added.1 }
  else
    match o7.m_pObject.m_collisionShape with
    | none => none
    | some shape =>
      let mins := shape.aabbMin.absolute
      let maxs := shape.aabbMax.absolute
      let maxradius := min (min maxs.x maxs.y) maxs.z
      let minradius := min (min mins.x mins.y) mins.z
      let radius := min maxradius minradius
      let b := { o7.m_pObject with
        m_ccdMotionThreshold := (radius / 2) * (radius / 2)
        m_ccdSweptSphereRadius := (7 / 10) * radius }
      let added := addRigidBody o7.m_pEnv b none
      some { o7 with m_pObject := added.2, m_pEnv := added.1 }

end CPhysicsObject

/-! ## Part 5: operation sequences and concrete objects for evaluation -/

/-- The five velocity-changing calls of the object interface, with their arguments. -/
inductive VelocityCall where
  | setVelocity (velocity angularVelocity : Option Vec3)
  | addVelocity (velocity angularVelocity : Option Vec3)
  | applyForceCenter (forceVector : Vec3)
  | applyForceOffset (forceVector worldPosition : Vec3)
  | applyTorqueCenter (torque : Vec3)

/-- Performs one velocity-changing call. -/
def VelocityCall.run (cv : Convert) (o : CPhysicsObject) : VelocityCall → CPhysicsObject
  | .setVelocity v w => o.SetVelocity cv v w
  | .addVelocity v w => o.AddVelocity cv v w
  | .applyForceCenter f => o.ApplyForceCenter cv f
  | .applyForceOffset f p => o.ApplyForceOffset cv f p
  | .applyTorqueCenter t => o.ApplyTorqueCenter cv t

/-- Performs a sequence of velocity-changing calls, first to last. -/
def runCalls (cv : Convert) (o : CPhysicsObject) (calls : List VelocityCall) : CPhysicsObject :=
  calls.foldl (VelocityCall.run cv) o

/-- The torque that the specification's sentence on `CalculateForceOffset` describes:
`(worldPosition − bodyOrigin) × force`, with `bodyOrigin` the position reported by
`GetPosition`. -/
def specCenterTorque (cv : Convert) (o : CPhysicsObject) (forceVector worldPosition : Vec3) :
    Option Vec3 :=
  (o.GetPosition cv true false).1.map (fun bodyOrigin => (worldPosition.sub bodyOrigin).cross forceVector)

/-- The linear drag that the specification's sentence describes: the stored coefficient
times the sum over the three axes. -/
def specDragInDirection (o : CPhysicsObject) (dir : Vec3) : ℚ :=
  let l := BtMatrix_vimult o.m_pObject.m_worldTransform.basis dir
  o.m_dragCoefficient * (|l.x * o.m_dragBasis.x| + |l.y * o.m_dragBasis.y| + |l.z * o.m_dragBasis.z|)

/-- The angular drag that the specification's sentence describes. -/
def specAngularDragInDirection (o : CPhysicsObject) (dir : Vec3) : ℚ :=
  o.m_angDragCoefficient *
    (|dir.x * o.m_angDragBasis.x| + |dir.y * o.m_angDragBasis.y| + |dir.z * o.m_angDragBasis.z|)

/-- The linear drag basis that the specification's sentence describes: per axis the product of
the other two half-extents of the bounding box, times the inverse mass. -/
def specDragBasis (shape : btCollisionShape) (invMass : ℚ) : Vec3 :=
  let half := ((shape.aabbMax.sub shape.aabbMin).absolute).scale (1 / 2)
  { x := half.y * half.z * invMass, y := half.x * half.z * invMass, z := half.x * half.y * invMass }

/-- A box shape with corners `(-1, -1, -1)` and `(1, 1, 1)`. -/
def sampleShape : btCollisionShape :=
  { aabbMin := { x := -1, y := -1, z := -1 }, aabbMax := { x := 1, y := 1, z := 1 } }

/-- An awake dynamic engine body of unit mass at the origin, taking world gravity. -/
def sampleBody : btRigidBody :=
  { m_collisionFlags := 0
    m_rigidbodyFlags := 0
    m_activationState1 := ACTIVE_TAG
    m_deactivationTime := 0
    m_worldTransform := btTransform.identity
    m_centerOfMassOffset := btTransform.identity
    m_collisionShape := some sampleShape
    m_userPointer := some 0
    m_linearVelocity := Vec3.zero
    m_angularVelocity := Vec3.zero
    m_linearFactor := { x := 1, y := 1, z := 1 }
    m_angularFactor := { x := 1, y := 1, z := 1 }
    m_inverseMass := 1
    m_invMass := { x := 1, y := 1, z := 1 }
    m_gravity := Vec3.zero
    m_gravity_acceleration := Vec3.zero
    m_invInertiaLocal := { x := 1, y := 1, z := 1 }
    m_invInertiaTensorWorld := Mat3.identity
    m_friction := 0
    m_restitution := 0
    m_linearSleepingThreshold := 0
    m_angularSleepingThreshold := 0
    m_ccdMotionThreshold := 0
    m_ccdSweptSphereRadius := 0 }

/-- An environment without gravity whose drag controller controls nothing, holding the body. -/
def sampleEnv : CPhysicsEnvironment :=
  { m_gravity := Vec3.zero, rigidBodyInWorld := some none, ghostInWorld := none
    dragController := [] }

/-- A dynamic object of unit mass over `sampleBody`: motion enabled, no shadow controller, no
fluid controller, not a trigger, all callback flags clear, drag coefficients 3. -/
def sampleObject : CPhysicsObject :=
  { self := 0
    m_pEnv := sampleEnv
    m_pObject := sampleBody
    m_pGameData := none
    m_pName := none
    m_contents := 0
    m_iGameIndex := 0
    m_gameFlags := 0
    m_callbacks := 0
    m_materialIndex := 0
    m_iLastActivationState := -1
    m_bMotionEnabled := true
    m_bIsSphere := false
    m_bRemoving := false
    m_fMass := 1
    m_fVolume := 0
    m_fBuoyancyRatio := 0
    m_dragCoefficient := 3
    m_angDragCoefficient := 3
    m_dragBasis := { x := 1, y := 1, z := 1 }
    m_angDragBasis := { x := 1, y := 1, z := 1 }
    m_pShadow := none
    m_pFluidController := none
    m_pGhostObject := none
    m_pGhostCallback := false }

/-- The sample object with its center of mass one unit along `x` from the body origin: the
engine transform sits at `(1, 0, 0)` and the mass-center offset is the translation `(1, 0, 0)`,
so the body origin is `(0, 0, 0)`. -/
def sampleOffsetObject : CPhysicsObject :=
  { sampleObject with
    m_pObject := { sampleBody with
      m_worldTransform := { basis := Mat3.identity, origin := { x := 1, y := 0, z := 0 } }
      m_centerOfMassOffset := { basis := Mat3.identity, origin := { x := 1, y := 0, z := 0 } } } }

/-! ## Part 6: construction, collision-filter recheck, contact query, call sequences -/

/-- Bullet's `btOverlappingPairCache::removeOverlappingPair`: the cache holds one pair per two
proxies and drops the pair of `proxy0` and `proxy1`. The order in which the engine stores the
remaining pairs is not modelled. -/
def removeOverlappingPair (cache : List btBroadphasePair) (proxy0 proxy1 : btBroadphaseProxy) :
    List btBroadphasePair :=
  cache.filter (fun q => !(decide (q.m_pProxy0 = proxy0) && decide (q.m_pProxy1 = proxy1)))

namespace CPhysicsObject

/-- The constructor `CPhysicsObject::CPhysicsObject()`, run on the memory `mem` of the new
object: the members it does not assign keep what the memory held. Its assignments of null to
`m_pEnv` and `m_pObject` have no counterpart here, both members being assigned by `Init` before
any use. -/
def construct (mem : CPhysicsObject) : CPhysicsObject :=
  { mem with
    m_contents := 0
    m_iGameIndex := 0
    m_pShadow := none
    m_pFluidController := none
    m_pGameData := none
    m_pGhostObject := none
    m_pGhostCallback := false
    m_pName := none
    m_bRemoving := false }

/-- `CPhysicsObject::GetMaterialIndex`. -/
def GetMaterialIndex (o : CPhysicsObject) : Int := o.m_materialIndex

/-- The loop of `CPhysicsObject::RecheckCollisionFilter`, at the point where `i + 1 = k`: `arr` is
the copy of the pair array taken before the loop, `cache` the engine's pair cache, and `pSolver`
the collision solver's `NeedsCollision` (`none`: no solver), applied to the user pointers of the
two client objects. -/
def RecheckCollisionFilter.loop (pSolver : Option (Option Nat → Option Nat → Bool))
    (arr : List btBroadphasePair) : Nat → List btBroadphasePair → List btBroadphasePair
  | 0, cache => cache
  | i + 1, cache =>
    match arr[i]? with
    | none => cache
    | some pair =>
      let pObj0 := pair.m_pProxy0.m_clientObject.m_userPointer
      let pObj1 := pair.m_pProxy1.m_clientObject.m_userPointer
      let cache1 :=
        match pSolver with
        | some NeedsCollision =>
          if !NeedsCollision pObj0 pObj1 then
            removeOverlappingPair cache pair.m_pProxy0 pair.m_pProxy1
          else cache
        | none => cache
      RecheckCollisionFilter.loop pSolver arr i cache1

/-- `CPhysicsObject::RecheckCollisionFilter`. -/
def RecheckCollisionFilter (pSolver : Option (Option Nat → Option Nat → Bool))
    (o : CPhysicsObject) : CPhysicsObject :=
  let arr := o.m_pEnv.pairCache
  { o with m_pEnv := { o.m_pEnv with
      pairCache :=
        RecheckCollisionFilter.loop pSolver arr o.m_pEnv.pairCache.length o.m_pEnv.pairCache } }

/-- The loop of `CPhysicsObject::GetContactPoint` over the manifolds from index `i` on; the
result is the returned `bool`, the value written to `*contactPoint` and the value written to
`*contactObject` (a user pointer, possibly null). -/
def GetContactPoint.scan (cv : Convert) (pObject : Nat) (wantPoint wantObject : Bool) :
    List btPersistentManifold → Bool × Option Vec3 × Option (Option Nat)
  | [] => (false, none, none)
  | contactManifold :: rest =>
    if contactManifold.m_cachedPoints ≤ 0 then GetContactPoint.scan cv pObject wantPoint wantObject rest
    else if contactManifold.m_body0.address = pObject then
      (true,
       if wantPoint then some (cv.ConvertPosToHL contactManifold.m_pointCache0.m_positionWorldOnA)
        else none,
       if wantObject then some contactManifold.m_body1.m_userPointer else none)
    else if contactManifold.m_body1.address = pObject then
      (true,
       if wantPoint then some (cv.ConvertPosToHL contactManifold.m_pointCache0.m_positionWorldOnB)
        else none,
       if wantObject then some contactManifold.m_body0.m_userPointer else none)
    else GetContactPoint.scan cv pObject wantPoint wantObject rest

/-- `CPhysicsObject::GetContactPoint`; `wantPoint`, `wantObject`: the output pointer is not
null. -/
def GetContactPoint (cv : Convert) (o : CPhysicsObject) (wantPoint wantObject : Bool) :
    Bool × Option Vec3 × Option (Option Nat) :=
  if !wantPoint && !wantObject then (false, none, none)
  else GetContactPoint.scan cv o.m_pObject.address wantPoint wantObject o.m_pEnv.manifolds

end CPhysicsObject

/-- The state-changing calls of the object interface that the static-body invariant ranges
over, with their arguments. -/
inductive LifecycleCall where
  | enableMotion (enable : Bool)
  | enableGravity (enable : Bool)
  | enableDrag (enable : Bool)
  | enableCollisions (enable : Bool)
  | setMass (mass : ℚ)
  | wake
  | sleep
  | becomeTrigger
  | removeTrigger

/-- Performs one call; `none` when the call dereferences a null pointer. -/
def LifecycleCall.run (K : Consts) (o : CPhysicsObject) : LifecycleCall → Option CPhysicsObject
  | .enableMotion e => some (o.EnableMotion e)
  | .enableGravity e => some (o.EnableGravity e)
  | .enableDrag e => some (o.EnableDrag e)
  | .enableCollisions e => some (o.EnableCollisions e)
  | .setMass m => some (o.SetMass m)
  | .wake => some o.Wake
  | .sleep => some o.Sleep
  | .becomeTrigger => some (o.BecomeTrigger K)
  | .removeTrigger => o.RemoveTrigger K

/-- Performs a sequence of calls, first to last. -/
def runLifecycle (K : Consts) : CPhysicsObject → List LifecycleCall → Option CPhysicsObject
  | o, [] => some o
  | o, c :: cs =>
    match c.run K o with
    | some o1 => runLifecycle K o1 cs
    | none => none

/-! ## Part 7: further concrete objects for evaluation -/

/-- The sample object with its motion flag off while the engine body still has the velocity
`(1, 2, 3)` and the factors zero. -/
def sampleFrozenObject : CPhysicsObject :=
  { sampleObject with
    m_bMotionEnabled := false
    m_pObject := { sampleBody with
      m_linearVelocity := { x := 1, y := 2, z := 3 }
      m_linearFactor := Vec3.zero
      m_angularFactor := Vec3.zero
      m_invMass := Vec3.zero } }

/-- The condition of the specification's sentence on `GetContactPoint`: the manifold has at
least one contact point and has the body at address `pObject` as body 0 or body 1. -/
def touchesBody (pObject : Nat) (m : btPersistentManifold) : Bool :=
  decide (0 < m.m_cachedPoints) &&
    (decide (m.m_body0.address = pObject) || decide (m.m_body1.address = pObject))

/-- The other body of a manifold that touches the body at address `pObject`, as its user
pointer: body 1 when the body is body 0, body 0 otherwise. -/
def otherBody (pObject : Nat) (m : btPersistentManifold) : Option Nat :=
  if m.m_body0.address = pObject then m.m_body1.m_userPointer else m.m_body0.m_userPointer

/-- The contact position reported for a manifold that touches the body at address `pObject`:
the point on A when the body is body 0, the point on B otherwise. -/
def contactPosition (pObject : Nat) (m : btPersistentManifold) : Vec3 :=
  if m.m_body0.address = pObject then m.m_pointCache0.m_positionWorldOnA
  else m.m_pointCache0.m_positionWorldOnB

/-- The sample object with a fluid controller attached and no ghost object. -/
def sampleFluidObject : CPhysicsObject :=
  { sampleObject with m_pFluidController := some 1 }

/-! ## Part 8: creation of a sphere object -/

/-- The constant `M_PI` of the C math header, the decimal literal `3.14159265358979323846`. -/
def M_PI : ℚ := 314159265358979323846 / 100000000000000000000

/-- Bullet's `btMatrix3x3::scaled`: column `j` multiplied by component `j` of `s`. -/
def Mat3.scaled (m : Mat3) (s : Vec3) : Mat3 :=
  { r0 := m.r0.mul s, r1 := m.r1.mul s, r2 := m.r2.mul s }

/-- Bullet's `btRigidBody::updateInertiaTensor`. -/
def btRigidBody.updateInertiaTensor (b : btRigidBody) : btRigidBody :=
  { b with
    m_invInertiaTensorWorld :=
      (b.m_worldTransform.basis.scaled b.m_invInertiaLocal).mul b.m_worldTransform.basis.transpose }

/-- Modelled from the spec: the world transform that a `btMassCenterMotionState` (its header is
not among the sources) hands to the engine after `setGraphicTransform(graphic)`: the
mass-center offset "applied whenever a world transform is written", as `SetPosition` does. -/
def massCenterWorldTransform (graphic centerOfMassOffset : btTransform) : btTransform :=
  graphic.mul centerOfMassOffset

/-- Bullet's `new btRigidBody(btRigidBodyConstructionInfo(mass, motionState, shape))` with the
construction info's defaults (zero local inertia, friction 0.5, sleeping thresholds 0.8 and 1):
`address` is the address of the new body, `worldTransform` what the motion state reports and
`centerOfMassOffset` the offset the motion state holds. -/
def btRigidBody.new (address : Nat) (mass : ℚ) (worldTransform centerOfMassOffset : btTransform)
    (shape : Option btCollisionShape) : btRigidBody :=
  let b0 : btRigidBody :=
    { m_collisionFlags := CF_STATIC_OBJECT
      m_rigidbodyFlags := 0
      m_activationState1 := ACTIVE_TAG
      m_deactivationTime := 0
      m_worldTransform := worldTransform
      m_centerOfMassOffset := centerOfMassOffset
      m_collisionShape := shape
      m_userPointer := none
      m_linearVelocity := Vec3.zero
      m_angularVelocity := Vec3.zero
      m_linearFactor := { x := 1, y := 1, z := 1 }
      m_angularFactor := { x := 1, y := 1, z := 1 }
      m_inverseMass := 0
      m_invMass := Vec3.zero
      m_gravity := Vec3.zero
      m_gravity_acceleration := Vec3.zero
      m_invInertiaLocal := Vec3.zero
      m_invInertiaTensorWorld := Mat3.identity
      m_friction := 1 / 2
      m_restitution := 0
      m_linearSleepingThreshold := 4 / 5
      m_angularSleepingThreshold := 1
      m_ccdMotionThreshold := 0
      m_ccdSweptSphereRadius := 0
      address := address }
  (b0.setMassProps mass Vec3.zero).updateInertiaTensor

/-- `CreatePhysicsSphere`. The result is the returned object (`none`: `NULL`) and the parameter
block `*pParams` as the function leaves it. `ConvertRotationToBull` is the conversion of
`convert.h`, `SphereToConvex` the shape factory of the collision interface, `mem` the memory of
the new `CPhysicsObject` and `bodyAddress` the address of the new engine body. The expression
`(4 / 3)` divides two `int` literals. -/
def CreatePhysicsSphere (K : Consts) (db : Int → Option surfacephysicsparams_t)
    (AngDragIntegral : ℚ → ℚ → ℚ → ℚ → ℚ) (cv : Convert) (ConvertRotationToBull : Vec3 → Mat3)
    (SphereToConvex : ℚ → btCollisionShape) (mem : CPhysicsObject) (bodyAddress : Nat)
    (pEnvironment : Option CPhysicsEnvironment) (radius : ℚ) (materialIndex : Int)
    (position angles : Vec3) (pParams : Option objectparams_t) (isStatic : Bool) :
    Option CPhysicsObject × Option objectparams_t :=
  match pEnvironment with
  | none => (none, pParams)
  | some env =>
    let shape := SphereToConvex radius
    let transform : btTransform :=
      { basis := ConvertRotationToBull angles, origin := cv.ConvertPosToBull position }
    let mass : ℚ :=
      match pParams with
      | some p => if isStatic then 0 else p.mass
      | none => 0
    let pParams1 : Option objectparams_t :=
      match pParams with
      | some p =>
        let volume := p.volume
        if volume ≤ 0 then
          some { p with volume := (((4 / 3 : Int) : ℚ)) * M_PI * radius * radius * radius }
        else some p
      | none => none
    let body := btRigidBody.new bodyAddress mass
      (massCenterWorldTransform transform btTransform.identity) btTransform.identity (some shape)
    (CPhysicsObject.Init K db AngDragIntegral mem.construct env body materialIndex pParams1
      isStatic true, pParams1)

/-- The volume that the specification's sentence on `CreatePhysicsSphere` describes: that of a
sphere of radius `r`, `(4/3) * pi * r^3`, with `M_PI` for pi. -/
def specSphereVolume (r : ℚ) : ℚ := (4 / 3) * M_PI * r ^ 3

/-- Creation parameters with mass 1 and volume 0. -/
def sampleParams : objectparams_t :=
  { mass := 1, volume := 0, dragCoefficient := 0, enableCollisions := true
    pGameData := none, pName := none }

end PhysicsObject

/-! ## Theorems: `CPhysicsCollisionSet` -/

namespace CollisionSet

theorem one_and_or_one (w : Nat) : (1 &&& ((w ||| 1) ||| 1)) ≠ 0 := by
  intro h
  have := congrArg (fun n => n.testBit 0) h
  simp at this

/-- C1: for indices `0 ≤ i, j < m_iMaxEntries`, whatever the table holds, after
`EnableCollisions(i, j)` both `ShouldCollide(i, j)` and `ShouldCollide(j, i)` return true. -/
theorem enable_then_shouldCollide (s : CPhysicsCollisionSet) (i j : Int)
    (hi0 : 0 ≤ i) (hi : i < s.m_iMaxEntries) (hj0 : 0 ≤ j) (hj : j < s.m_iMaxEntries) :
    ShouldCollide (EnableCollisions s i j) i j = true ∧
      ShouldCollide (EnableCollisions s i j) j i = true := by
  by_cases hg : guard s i j = true
  · have hg' : guard s j i = true := by
      simp only [guard, Bool.or_eq_true, Bool.and_eq_true, decide_eq_true_eq] at hg ⊢
      tauto
    simp [EnableCollisions, ShouldCollide, hg, hg']
  · have hi1 : i = 0 := by
      simp only [guard, Bool.or_eq_true, Bool.and_eq_true, decide_eq_true_eq] at hg
      by_contra hne
      exact hg (Or.inl ⟨hi, by omega⟩)
    have hj1 : j = 0 := by
      simp only [guard, Bool.or_eq_true, Bool.and_eq_true, decide_eq_true_eq] at hg
      by_contra hne
      exact hg (Or.inr ⟨hj, by omega⟩)
    subst hi1 hj1
    have h1 : shl1 0 = 1 := by decide
    have hg2 : guard (store (store s 0 (s.m_collArray 0 ||| 1)) 0
        ((store s 0 (s.m_collArray 0 ||| 1)).m_collArray 0 ||| 1)) 0 0 = false := by
      simp [guard]
    simp only [EnableCollisions, ShouldCollide, hg, h1, hg2, Bool.false_eq_true, if_false]
    simp [store, one_and_or_one]

/-- Witness for C1: a four-entry table of zero words, indices 1 and 2. -/
theorem enable_then_shouldCollide_witness :
    ShouldCollide (EnableCollisions (filled 4 0) 1 2) 1 2 = true ∧
      ShouldCollide (EnableCollisions (filled 4 0) 1 2) 2 1 = true :=
  enable_then_shouldCollide (filled 4 0) 1 2 (by decide) (by decide) (by decide) (by decide)

/-- C2 (failing input): in a four-entry table, after `EnableCollisions(1, 2)` and
`DisableCollisions(1, 2)` the query `ShouldCollide(1, 2)` (and `ShouldCollide(2, 1)`) still
returns true, and no word of the table was written by either call. -/
theorem enable_disable_still_collides :
    ShouldCollide (DisableCollisions (EnableCollisions (filled 4 0) 1 2) 1 2) 1 2 = true ∧
      ShouldCollide (DisableCollisions (EnableCollisions (filled 4 0) 1 2) 1 2) 2 1 = true ∧
      (DisableCollisions (EnableCollisions (filled 4 0) 1 2) 1 2).m_collArray 1 = 0 ∧
      (EnableCollisions (filled 4 0) 1 2).m_collArray 1 = 0 := by
  decide

/-- C3 (failing input): in a four-entry table, `EnableCollisions(0, 5)` is not rejected: it sets
bit 5 of the in-range word 0; and `DisableCollisions(0, 5)` clears bit 5 of word 0. -/
theorem out_of_range_pair_writes_table :
    (EnableCollisions (filled 4 0) 0 5).m_collArray 0 = 32 ∧
      (DisableCollisions (filled 4 (WORD - 1)) 0 5).m_collArray 0 = WORD - 1 - 32 := by
  decide

end CollisionSet

/-! ## Theorems: `CPhysicsObject` -/

namespace PhysicsObject

theorem and_one_of_or_one (f : Nat) : (f ||| 1) &&& 1 ≠ 0 := by
  intro h
  have := congrArg (fun n => n.testBit 0) h
  simp at this

theorem setActivationState_collisionFlags (b : btRigidBody) (n : Int) :
    (b.setActivationState n).m_collisionFlags = b.m_collisionFlags := by
  unfold btRigidBody.setActivationState
  split <;> rfl

theorem addRigidBody_collisionFlags (e : CPhysicsEnvironment) (b : btRigidBody)
    (f : Option (Int × Int)) : (addRigidBody e b f).2.m_collisionFlags = b.m_collisionFlags := by
  unfold addRigidBody
  simp only
  split <;> split <;> (try split) <;> simp [btRigidBody.setGravity, setActivationState_collisionFlags]

theorem testBit_bnot32 (w i : Nat) : (bnot32 w).testBit i = (decide (i < 32) && !w.testBit i) := by
  have h : bnot32 w = 2 ^ 32 - (w % 2 ^ 32 + 1) := by unfold bnot32; omega
  rw [h, Nat.testBit_two_pow_sub_succ (Nat.mod_lt _ (by norm_num)), Nat.testBit_mod_two_pow]
  by_cases hi : i < 32 <;> simp [hi]

theorem and_bnot32_one (f : Nat) : (f &&& bnot32 1) &&& 1 = 0 := by
  apply Nat.eq_of_testBit_eq
  intro i
  simp only [Nat.testBit_and, testBit_bnot32, Nat.zero_testBit]
  cases i with
  | zero => simp
  | succ n => simp [Nat.testBit_succ]

theorem setActivationState_rigidbodyFlags (b : btRigidBody) (n : Int) :
    (b.setActivationState n).m_rigidbodyFlags = b.m_rigidbodyFlags := by
  unfold btRigidBody.setActivationState
  split <;> rfl

theorem addRigidBody_rigidbodyFlags (e : CPhysicsEnvironment) (b : btRigidBody)
    (f : Option (Int × Int)) : (addRigidBody e b f).2.m_rigidbodyFlags = b.m_rigidbodyFlags := by
  unfold addRigidBody
  simp only
  split <;> split <;> (try split) <;> simp [btRigidBody.setGravity, setActivationState_rigidbodyFlags]

theorem addRigidBody_dragController (e : CPhysicsEnvironment) (b : btRigidBody)
    (f : Option (Int × Int)) : (addRigidBody e b f).1.dragController = e.dragController := by
  unfold addRigidBody
  simp only
  split <;> rfl

theorem testBit_toUShort (w i : Nat) : (toUShort w).testBit i = (decide (i < 16) && w.testBit i) := by
  unfold toUShort
  rw [Nat.testBit_mod_two_pow]

namespace CPhysicsObject

/-! ### Static bodies -/

theorem static_noop (s : CPhysicsObject) (h : s.IsStatic = true) (e : Bool) (x : ℚ) :
    s.EnableMotion e = s ∧ s.EnableGravity e = s ∧ s.EnableDrag e = s ∧ s.SetMass x = s := by
  simp [EnableMotion, EnableGravity, EnableDrag, SetMass, h]

theorem Init_static (K : Consts) (db : Int → Option surfacephysicsparams_t)
    (A : ℚ → ℚ → ℚ → ℚ → ℚ) (o : CPhysicsObject) (pEnv : CPhysicsEnvironment)
    (pObject : btRigidBody) (materialIndex : Int) (pParams : Option objectparams_t)
    (isSphere : Bool) :
    ∃ s, Init K db A o pEnv pObject materialIndex pParams true isSphere = some s ∧
      s.IsStatic = true := by
  simp only [Init, if_true]
  refine ⟨_, rfl, ?_⟩
  simp only [IsStatic, addRigidBody_collisionFlags, CF_STATIC_OBJECT]
  simp [and_one_of_or_one]

/-- C4: `Init` with `isStatic = true` always yields an object, and on that object each of
`EnableMotion(true)`, `EnableGravity(true)`, `EnableDrag(true)` and `SetMass(x)`, for every `x`,
returns the whole state (object, engine body and environment) unchanged. -/
theorem static_body_immutable (K : Consts) (db : Int → Option surfacephysicsparams_t)
    (A : ℚ → ℚ → ℚ → ℚ → ℚ) (o : CPhysicsObject) (pEnv : CPhysicsEnvironment)
    (pObject : btRigidBody) (materialIndex : Int) (pParams : Option objectparams_t)
    (isSphere : Bool) :
    ∃ s, Init K db A o pEnv pObject materialIndex pParams true isSphere = some s ∧
      s.EnableMotion true = s ∧ s.EnableGravity true = s ∧ s.EnableDrag true = s ∧
      ∀ x : ℚ, s.SetMass x = s := by
  obtain ⟨s, hs, hst⟩ := Init_static K db A o pEnv pObject materialIndex pParams isSphere
  exact ⟨s, hs, (static_noop s hst true 0).1, (static_noop s hst true 0).2.1,
    (static_noop s hst true 0).2.2.1, fun x => (static_noop s hst true x).2.2.2⟩

/-! ### Motion disabling -/

theorem EnableMotion_collisionFlags (o : CPhysicsObject) (e : Bool) :
    (o.EnableMotion e).m_pObject.m_collisionFlags = o.m_pObject.m_collisionFlags := by
  unfold EnableMotion
  split
  · rfl
  · split <;> rfl

theorem EnableMotion_isStatic (o : CPhysicsObject) (e : Bool) :
    (o.EnableMotion e).IsStatic = o.IsStatic := by
  simp only [IsStatic, EnableMotion_collisionFlags]

theorem EnableMotion_motion (o : CPhysicsObject) (e : Bool) (h : o.IsStatic = false) :
    (o.EnableMotion e).m_bMotionEnabled = e := by
  unfold EnableMotion
  by_cases hm : o.IsMotionEnabled = e
  · rw [if_pos (by simp [hm])]
    exact hm
  · rw [if_neg (by simp [hm, h])]
    cases e <;> rfl

theorem call_of_not_moveable (cv : Convert) (o : CPhysicsObject) (h : o.m_bMotionEnabled = false)
    (c : VelocityCall) : c.run cv o = o := by
  cases c <;>
    simp [VelocityCall.run, SetVelocity, AddVelocity, ApplyForceCenter, ApplyForceOffset,
      ApplyTorqueCenter, IsMoveable, IsMotionEnabled, h]

theorem calls_of_not_moveable (cv : Convert) (o : CPhysicsObject) (h : o.m_bMotionEnabled = false)
    (calls : List VelocityCall) : runCalls cv o calls = o := by
  induction calls with
  | nil => rfl
  | cons c cs ih =>
    simp only [runCalls, List.foldl_cons] at ih ⊢
    rw [call_of_not_moveable cv o h c]
    exact ih

/-- C5: on a non-static body, after `EnableMotion(false)` any sequence of `SetVelocity`,
`AddVelocity`, `ApplyForceCenter`, `ApplyForceOffset` and `ApplyTorqueCenter` calls leaves the
linear velocity, the angular velocity and the activation state as `EnableMotion(false)` left
them; after a following `EnableMotion(true)`, `SetVelocity(v, NULL)` sets the linear velocity to
the converted `v`. -/
theorem motion_disable_freezes (cv : Convert) (o : CPhysicsObject) (h : o.IsStatic = false)
    (calls : List VelocityCall) (v : Vec3) :
    (runCalls cv (o.EnableMotion false) calls).m_pObject.m_linearVelocity =
        (o.EnableMotion false).m_pObject.m_linearVelocity ∧
      (runCalls cv (o.EnableMotion false) calls).m_pObject.m_angularVelocity =
        (o.EnableMotion false).m_pObject.m_angularVelocity ∧
      (runCalls cv (o.EnableMotion false) calls).m_pObject.m_activationState1 =
        (o.EnableMotion false).m_pObject.m_activationState1 ∧
      (((runCalls cv (o.EnableMotion false) calls).EnableMotion true).SetVelocity cv (some v)
        none).m_pObject.m_linearVelocity = cv.ConvertPosToBull v := by
  have hm : (o.EnableMotion false).m_bMotionEnabled = false := EnableMotion_motion o false h
  have hs : (o.EnableMotion false).IsStatic = false := by rw [EnableMotion_isStatic]; exact h
  rw [calls_of_not_moveable cv _ hm calls]
  refine ⟨rfl, rfl, rfl, ?_⟩
  have hs2 : ((o.EnableMotion false).EnableMotion true).IsStatic = false := by
    rw [EnableMotion_isStatic]; exact hs
  have hm2 : ((o.EnableMotion false).EnableMotion true).m_bMotionEnabled = true :=
    EnableMotion_motion _ true hs
  generalize (o.EnableMotion false).EnableMotion true = o2 at hm2 hs2
  simp [SetVelocity, IsMoveable, IsMotionEnabled, hm2, hs2, Wake]

/-- Witness for C5: the sample dynamic object, one `ApplyForceCenter((100, 0, 0))` call while
frozen, then `SetVelocity((1, 2, 3), NULL)`. -/
theorem motion_disable_freezes_witness :
    (runCalls unitConvert (sampleObject.EnableMotion false)
        [VelocityCall.applyForceCenter { x := 100, y := 0, z := 0 }]).m_pObject.m_linearVelocity =
        (sampleObject.EnableMotion false).m_pObject.m_linearVelocity ∧
      (runCalls unitConvert (sampleObject.EnableMotion false)
        [VelocityCall.applyForceCenter { x := 100, y := 0, z := 0 }]).m_pObject.m_angularVelocity =
        (sampleObject.EnableMotion false).m_pObject.m_angularVelocity ∧
      (runCalls unitConvert (sampleObject.EnableMotion false)
        [VelocityCall.applyForceCenter { x := 100, y := 0, z := 0 }]).m_pObject.m_activationState1 =
        (sampleObject.EnableMotion false).m_pObject.m_activationState1 ∧
      (((runCalls unitConvert (sampleObject.EnableMotion false)
        [VelocityCall.applyForceCenter { x := 100, y := 0, z := 0 }]).EnableMotion true).SetVelocity
        unitConvert (some { x := 1, y := 2, z := 3 }) none).m_pObject.m_linearVelocity =
        unitConvert.ConvertPosToBull { x := 1, y := 2, z := 3 } :=
  motion_disable_freezes unitConvert sampleObject (by decide)
    [VelocityCall.applyForceCenter { x := 100, y := 0, z := 0 }] { x := 1, y := 2, z := 3 }


/-! ### Trigger mode -/

theorem EnableDrag_true_isDragEnabled (o : CPhysicsObject) :
    (o.EnableDrag true).IsDragEnabled = !o.IsStatic := by
  unfold EnableDrag
  cases hs : o.IsStatic
  · by_cases hd : o.IsDragEnabled = true
    · simp [hs, hd]
    · simp only [Bool.not_eq_true] at hd
      simp [hs, hd, IsDragEnabled, IsStatic, dragIsControlling, dragAddPhysicsObject]
      simp only [IsStatic] at hs
      simp at hs
      simp [hs]
      split <;> simp_all
  · simp [hs, IsDragEnabled]

theorem EnableDrag_pObject (o : CPhysicsObject) (e : Bool) :
    (o.EnableDrag e).m_pObject = o.m_pObject := by
  unfold EnableDrag
  split
  · rfl
  · split <;> rfl

theorem EnableDrag_ghost (o : CPhysicsObject) (e : Bool) :
    (o.EnableDrag e).m_pGhostObject = o.m_pGhostObject := by
  unfold EnableDrag
  split
  · rfl
  · split <;> rfl

theorem EnableDrag_self (o : CPhysicsObject) (e : Bool) : (o.EnableDrag e).self = o.self := by
  unfold EnableDrag
  split
  · rfl
  · split <;> rfl

theorem EnableDrag_fluid (o : CPhysicsObject) (e : Bool) :
    (o.EnableDrag e).m_pFluidController = o.m_pFluidController := by
  unfold EnableDrag
  split
  · rfl
  · split <;> rfl

theorem EnableGravity_collisionFlags (o : CPhysicsObject) (e : Bool) :
    (o.EnableGravity e).m_pObject.m_collisionFlags = o.m_pObject.m_collisionFlags := by
  unfold EnableGravity
  split
  · rfl
  · split <;> rfl

theorem EnableGravity_env (o : CPhysicsObject) (e : Bool) :
    (o.EnableGravity e).m_pEnv = o.m_pEnv := by
  unfold EnableGravity
  split
  · rfl
  · split <;> rfl

theorem EnableGravity_self (o : CPhysicsObject) (e : Bool) : (o.EnableGravity e).self = o.self := by
  unfold EnableGravity
  split
  · rfl
  · split <;> rfl

theorem EnableGravity_ghost (o : CPhysicsObject) (e : Bool) :
    (o.EnableGravity e).m_pGhostObject = o.m_pGhostObject := by
  unfold EnableGravity
  split
  · rfl
  · split <;> rfl

theorem EnableGravity_fluid (o : CPhysicsObject) (e : Bool) :
    (o.EnableGravity e).m_pFluidController = o.m_pFluidController := by
  unfold EnableGravity
  split
  · rfl
  · split <;> rfl

theorem EnableGravity_true_isGravityEnabled (o : CPhysicsObject) :
    (o.EnableGravity true).IsGravityEnabled = !o.IsStatic := by
  unfold EnableGravity
  cases hs : o.IsStatic
  · by_cases hg : o.IsGravityEnabled = true
    · rw [if_pos (by simp [hg])]
      simpa using hg
    · rw [if_neg (by simp [hg])]
      have hs1 : decide (o.m_pObject.m_collisionFlags &&& CF_STATIC_OBJECT ≠ 0) = false := hs
      simp only [if_true, IsGravityEnabled, IsStatic, btRigidBody.setGravity, hs1,
        BT_DISABLE_WORLD_GRAVITY, and_bnot32_one]
      decide
  · rw [if_pos (by simp)]
    simp [hs, IsGravityEnabled]

theorem IsStatic_congr (a b : CPhysicsObject)
    (h : a.m_pObject.m_collisionFlags = b.m_pObject.m_collisionFlags) :
    a.IsStatic = b.IsStatic := by
  simp only [IsStatic, h]

theorem IsCollisionEnabled_congr (a b : CPhysicsObject)
    (h : a.m_pObject.m_collisionFlags = b.m_pObject.m_collisionFlags) :
    a.IsCollisionEnabled = b.IsCollisionEnabled := by
  simp only [IsCollisionEnabled, h]

theorem IsGravityEnabled_congr (a b : CPhysicsObject)
    (h : a.m_pObject.m_collisionFlags = b.m_pObject.m_collisionFlags)
    (hr : a.m_pObject.m_rigidbodyFlags = b.m_pObject.m_rigidbodyFlags) :
    a.IsGravityEnabled = b.IsGravityEnabled := by
  simp only [IsGravityEnabled, IsStatic, h, hr]

theorem IsDragEnabled_congr (a b : CPhysicsObject)
    (h : a.m_pObject.m_collisionFlags = b.m_pObject.m_collisionFlags)
    (hself : a.self = b.self) (hd : a.m_pEnv.dragController = b.m_pEnv.dragController) :
    a.IsDragEnabled = b.IsDragEnabled := by
  simp only [IsDragEnabled, IsStatic, dragIsControlling, h, hself, hd]

theorem RemoveTrigger_of_ghost (K : Consts) (t : CPhysicsObject) (g : btGhostObject)
    (hg : t.m_pGhostObject = some g) :
    ∃ r, RemoveTrigger K t = some r ∧
      r.m_pObject.m_collisionFlags = t.m_pObject.m_collisionFlags ∧
      r.IsGravityEnabled = !t.IsStatic ∧ r.IsDragEnabled = !t.IsStatic := by
  have htrig : t.IsTrigger = true := by simp [IsTrigger, hg]
  have hg2 : ((t.EnableDrag true).EnableGravity true).m_pGhostObject = some g := by
    rw [EnableGravity_ghost, EnableDrag_ghost, hg]
  have hflags : ((t.EnableDrag true).EnableGravity true).m_pObject.m_collisionFlags =
      t.m_pObject.m_collisionFlags := by
    rw [EnableGravity_collisionFlags, EnableDrag_pObject]
  have hgrav : ((t.EnableDrag true).EnableGravity true).IsGravityEnabled = !t.IsStatic := by
    rw [EnableGravity_true_isGravityEnabled]
    congr 1
    exact IsStatic_congr _ _ (by rw [EnableDrag_pObject])
  have hdrag : ((t.EnableDrag true).EnableGravity true).IsDragEnabled = !t.IsStatic := by
    rw [← EnableDrag_true_isDragEnabled]
    exact IsDragEnabled_congr _ _ (EnableGravity_collisionFlags _ _) (EnableGravity_self _ _)
      (by rw [EnableGravity_env])
  simp only [RemoveTrigger, htrig, Bool.not_true, Bool.false_eq_true, if_false, hg2]
  refine ⟨_, rfl, ?_, ?_, ?_⟩
  · split <;> simp only [addRigidBody_collisionFlags, hflags]
  · rw [← hgrav]
    apply IsGravityEnabled_congr
    · split <;> simp only [addRigidBody_collisionFlags]
    · split <;> simp only [addRigidBody_rigidbodyFlags]
  · rw [← hdrag]
    apply IsDragEnabled_congr
    · split <;> simp only [addRigidBody_collisionFlags]
    · rfl
    · split <;> simp only [addRigidBody_dragController]

theorem BecomeTrigger_of_not_trigger (K : Consts) (o : CPhysicsObject) (h : o.IsTrigger = false) :
    (∃ g, (o.BecomeTrigger K).m_pGhostObject = some g) ∧
      (o.BecomeTrigger K).m_pObject.m_collisionFlags = o.m_pObject.m_collisionFlags := by
  simp only [BecomeTrigger, h, Bool.false_eq_true, if_false]
  refine ⟨⟨_, rfl⟩, ?_⟩
  simp only [EnableGravity_collisionFlags, EnableDrag_pObject]

/-- C6 (as amended): on a non-trigger body, `BecomeTrigger()` followed by `RemoveTrigger()`
returns, leaves `IsCollisionEnabled()` as it was, and leaves `IsGravityEnabled()` and
`IsDragEnabled()` true on a non-static body and false on a static one, whatever they were
before. -/
theorem trigger_round_trip (K : Consts) (o : CPhysicsObject) (h : o.IsTrigger = false) :
    ∃ r, RemoveTrigger K (o.BecomeTrigger K) = some r ∧
      r.IsCollisionEnabled = o.IsCollisionEnabled ∧
      r.IsGravityEnabled = !o.IsStatic ∧ r.IsDragEnabled = !o.IsStatic := by
  obtain ⟨⟨g, hg⟩, hflags⟩ := BecomeTrigger_of_not_trigger K o h
  obtain ⟨r, hr, hrf, hrg, hrd⟩ := RemoveTrigger_of_ghost K (o.BecomeTrigger K) g hg
  have hst : (o.BecomeTrigger K).IsStatic = o.IsStatic := IsStatic_congr _ _ hflags
  exact ⟨r, hr, IsCollisionEnabled_congr _ _ (hrf.trans hflags), by rw [hrg, hst], by rw [hrd, hst]⟩

/-- Witness for C6: the sample dynamic object, which is not a trigger. -/
theorem trigger_round_trip_witness :
    ∃ r, RemoveTrigger sdkConsts (sampleObject.BecomeTrigger sdkConsts) = some r ∧
      r.IsCollisionEnabled = sampleObject.IsCollisionEnabled ∧
      r.IsGravityEnabled = !sampleObject.IsStatic ∧ r.IsDragEnabled = !sampleObject.IsStatic :=
  trigger_round_trip sdkConsts sampleObject (by decide)

/-- C6 (counterexample): the sample dynamic object with gravity and drag disabled is not a
trigger; after `BecomeTrigger()` and `RemoveTrigger()` both gravity and drag are enabled. -/
theorem trigger_round_trip_enables_gravity_and_drag :
    (sampleObject.EnableGravity false).IsTrigger = false ∧
      (sampleObject.EnableGravity false).IsGravityEnabled = false ∧
      (sampleObject.EnableGravity false).IsDragEnabled = false ∧
      (RemoveTrigger sdkConsts ((sampleObject.EnableGravity false).BecomeTrigger sdkConsts)).map
        IsGravityEnabled = some true ∧
      (RemoveTrigger sdkConsts ((sampleObject.EnableGravity false).BecomeTrigger sdkConsts)).map
        IsDragEnabled = some true := by
  decide

/-! ### Shadow controller attachment -/

theorem SetShadow_callbacks (K : Consts) (o : CPhysicsObject) (maxSpeed maxAngularSpeed : ℚ)
    (allowPhysicsMovement allowPhysicsRotation : Bool) (h : o.m_pShadow = none) (i : Nat) :
    (o.SetShadow K maxSpeed maxAngularSpeed allowPhysicsMovement
        allowPhysicsRotation).m_callbacks.testBit i =
      (decide (i < 16) && ((o.m_callbacks.testBit i || K.CALLBACK_SHADOW_COLLISION.testBit i) &&
        !K.CALLBACK_GLOBAL_FRICTION.testBit i && !K.CALLBACK_GLOBAL_COLLIDE_STATIC.testBit i)) := by
  simp only [SetShadow, h, SetCallbackFlags, GetCallbackFlags, testBit_toUShort, Nat.testBit_and,
    testBit_bnot32, Nat.testBit_mod_two_pow, Nat.testBit_or]
  by_cases h16 : i < 16
  · have h32 : i < 32 := by omega
    simp [h16, h32]
  · simp [h16]

theorem RemoveShadowController_callbacks (K : Consts) (o : CPhysicsObject) (i : Nat) :
    (o.RemoveShadowController K).m_callbacks.testBit i =
      (decide (i < 16) && ((o.m_callbacks.testBit i && !K.CALLBACK_SHADOW_COLLISION.testBit i) ||
        K.CALLBACK_GLOBAL_FRICTION.testBit i || K.CALLBACK_GLOBAL_COLLIDE_STATIC.testBit i)) := by
  simp only [RemoveShadowController, RemoveCallbackFlags, AddCallbackFlags, testBit_toUShort,
    Nat.testBit_and, testBit_bnot32, Nat.testBit_or]
  by_cases h16 : i < 16
  · have h32 : i < 32 := by omega
    simp [h16, h32, Bool.or_assoc]
  · simp [h16]

/-- C7 (as amended): on a body with no shadow controller and callback flags `f`, `SetShadow(...)`
sets the shadow-collision flag and clears the global-friction and global-collide-static flags,
and a following `RemoveShadowController()` detaches the controller and leaves the callback flags
equal to `f` with the shadow-collision flag cleared and the two global flags set (bit by bit,
within the 16 bits of the flag word). -/
theorem shadow_attach_detach_flags (K : Consts) (o : CPhysicsObject) (maxSpeed maxAngularSpeed : ℚ)
    (allowPhysicsMovement allowPhysicsRotation : Bool) (h : o.m_pShadow = none) :
    (∀ i, (o.SetShadow K maxSpeed maxAngularSpeed allowPhysicsMovement
        allowPhysicsRotation).m_callbacks.testBit i =
      (decide (i < 16) && ((o.m_callbacks.testBit i || K.CALLBACK_SHADOW_COLLISION.testBit i) &&
        !K.CALLBACK_GLOBAL_FRICTION.testBit i && !K.CALLBACK_GLOBAL_COLLIDE_STATIC.testBit i))) ∧
    (∀ i, ((o.SetShadow K maxSpeed maxAngularSpeed allowPhysicsMovement
        allowPhysicsRotation).RemoveShadowController K).m_callbacks.testBit i =
      (decide (i < 16) && ((o.m_callbacks.testBit i && !K.CALLBACK_SHADOW_COLLISION.testBit i) ||
        K.CALLBACK_GLOBAL_FRICTION.testBit i || K.CALLBACK_GLOBAL_COLLIDE_STATIC.testBit i))) ∧
    ((o.SetShadow K maxSpeed maxAngularSpeed allowPhysicsMovement
        allowPhysicsRotation).RemoveShadowController K).m_pShadow = none := by
  refine ⟨fun i => SetShadow_callbacks K o _ _ _ _ h i, fun i => ?_, rfl⟩
  rw [RemoveShadowController_callbacks, SetShadow_callbacks K o _ _ _ _ h i]
  by_cases h16 : i < 16
  · simp only [h16, decide_True, Bool.true_and]
    cases o.m_callbacks.testBit i <;> cases K.CALLBACK_SHADOW_COLLISION.testBit i <;>
      cases K.CALLBACK_GLOBAL_FRICTION.testBit i <;>
      cases K.CALLBACK_GLOBAL_COLLIDE_STATIC.testBit i <;> rfl
  · simp [h16]

/-- Witness for C7: the sample object, which has no shadow controller. -/
theorem shadow_attach_detach_flags_witness :
    (∀ i, (sampleObject.SetShadow sdkConsts 1 1 true true).m_callbacks.testBit i =
      (decide (i < 16) && ((sampleObject.m_callbacks.testBit i ||
          sdkConsts.CALLBACK_SHADOW_COLLISION.testBit i) &&
        !sdkConsts.CALLBACK_GLOBAL_FRICTION.testBit i &&
        !sdkConsts.CALLBACK_GLOBAL_COLLIDE_STATIC.testBit i))) ∧
    (∀ i, ((sampleObject.SetShadow sdkConsts 1 1 true true).RemoveShadowController
        sdkConsts).m_callbacks.testBit i =
      (decide (i < 16) && ((sampleObject.m_callbacks.testBit i &&
          !sdkConsts.CALLBACK_SHADOW_COLLISION.testBit i) ||
        sdkConsts.CALLBACK_GLOBAL_FRICTION.testBit i ||
        sdkConsts.CALLBACK_GLOBAL_COLLIDE_STATIC.testBit i))) ∧
    ((sampleObject.SetShadow sdkConsts 1 1 true true).RemoveShadowController sdkConsts).m_pShadow =
      none :=
  shadow_attach_detach_flags sdkConsts sampleObject 1 1 true true (by decide)

/-- C7 (counterexample): the sample object has no shadow controller and callback flags 0; after
`SetShadow` the flags are `0x10`, and after `RemoveShadowController` they are `0x22`, not 0. -/
theorem shadow_detach_does_not_restore_flags :
    sampleObject.m_pShadow = none ∧ sampleObject.GetCallbackFlags = 0 ∧
      (sampleObject.SetShadow sdkConsts 1 1 true true).GetCallbackFlags = 0x10 ∧
      ((sampleObject.SetShadow sdkConsts 1 1 true true).RemoveShadowController
        sdkConsts).GetCallbackFlags = 0x22 := by
  decide

/-! ### Drag -/

/-- C8 (failing input): on the sample object (drag coefficients 3, both drag bases `(1, 1, 1)`,
identity orientation) and the direction `(1, 1, 1)`, `GetDragInDirection`, `CalculateLinearDrag`
and `GetAngularDragInDirection` return `3 * 1 + 1 + 1 = 5`, while the coefficient times the sum
over the three axes is `3 * (1 + 1 + 1) = 9`. -/
theorem drag_coefficient_scales_first_axis_only :
    sampleObject.GetDragInDirection { x := 1, y := 1, z := 1 } = 5 ∧
      sampleObject.CalculateLinearDrag unitConvert { x := 1, y := 1, z := 1 } = 5 ∧
      specDragInDirection sampleObject { x := 1, y := 1, z := 1 } = 9 ∧
      sampleObject.GetAngularDragInDirection { x := 1, y := 1, z := 1 } = 5 ∧
      specAngularDragInDirection sampleObject { x := 1, y := 1, z := 1 } = 9 := by
  simp only [GetDragInDirection, CalculateLinearDrag, specDragInDirection, GetAngularDragInDirection,
    specAngularDragInDirection, sampleObject, sampleBody, unitConvert, BtMatrix_vimult,
    btTransform.identity, Mat3.identity, Mat3.transpose, Mat3.mulVec, Vec3.dot, id]
  norm_num

/-- C9 (as amended): `ComputeDragBasis` on a non-static body with a shape sets each component of
the linear drag basis to the product of the other two full extents `|max - min|` of the shape's
axis-aligned bounding box, times the inverse mass. -/
theorem dragBasis_full_extents (A : ℚ → ℚ → ℚ → ℚ → ℚ) (o : CPhysicsObject)
    (shape : btCollisionShape) (h : o.GetCollide = some shape) :
    (o.ComputeDragBasis A false).m_dragBasis =
      { x := |shape.aabbMax.y - shape.aabbMin.y| * |shape.aabbMax.z - shape.aabbMin.z| * o.GetInvMass
        y := |shape.aabbMax.x - shape.aabbMin.x| * |shape.aabbMax.z - shape.aabbMin.z| * o.GetInvMass
        z := |shape.aabbMax.x - shape.aabbMin.x| * |shape.aabbMax.y - shape.aabbMin.y| * o.GetInvMass } := by
  have h1 : ({ o with m_dragBasis := Vec3.zero, m_angDragBasis := Vec3.zero } :
      CPhysicsObject).GetCollide = some shape := h
  simp only [ComputeDragBasis, h1]
  simp [Vec3.scale, Vec3.sub, Vec3.absolute, GetInvMass]

/-- Witness for C9: the sample object with its box shape. -/
theorem dragBasis_full_extents_witness :
    (sampleObject.ComputeDragBasis (fun _ _ _ _ => 0) false).m_dragBasis =
      { x := |sampleShape.aabbMax.y - sampleShape.aabbMin.y| *
          |sampleShape.aabbMax.z - sampleShape.aabbMin.z| * sampleObject.GetInvMass
        y := |sampleShape.aabbMax.x - sampleShape.aabbMin.x| *
          |sampleShape.aabbMax.z - sampleShape.aabbMin.z| * sampleObject.GetInvMass
        z := |sampleShape.aabbMax.x - sampleShape.aabbMin.x| *
          |sampleShape.aabbMax.y - sampleShape.aabbMin.y| * sampleObject.GetInvMass } :=
  dragBasis_full_extents (fun _ _ _ _ => 0) sampleObject sampleShape rfl

/-- C9 (counterexample): for the sample object (unit mass, box from `(-1, -1, -1)` to
`(1, 1, 1)`, half-extents 1) `ComputeDragBasis` yields the basis `(4, 4, 4)`, while the products
of half-extents times the inverse mass are `(1, 1, 1)`. -/
theorem dragBasis_not_half_extents :
    sampleObject.IsStatic = false ∧ sampleObject.GetCollide = some sampleShape ∧
      (sampleObject.ComputeDragBasis (fun _ _ _ _ => 0) false).m_dragBasis =
        { x := 4, y := 4, z := 4 } ∧
      specDragBasis sampleShape sampleObject.GetInvMass = { x := 1, y := 1, z := 1 } := by
  refine ⟨by decide, rfl, ?_, ?_⟩
  · simp only [ComputeDragBasis, GetCollide, sampleObject, sampleBody, sampleShape, Vec3.sub,
      Vec3.absolute, Vec3.scale, GetInvMass, SAFE_DIVIDE]
    norm_num
  · simp only [specDragBasis, sampleObject, sampleShape, Vec3.sub, Vec3.absolute, Vec3.scale,
      GetInvMass, SAFE_DIVIDE]
    norm_num

/-! ### Offset forces -/

/-- C10 (as amended): `CalculateForceOffset` is a function of the state that writes, through
each non-null output, `centerForce` = the force converted to engine units and back (the force
itself under the converter's round-trip law) and `centerTorque` = the converted cross product
`(worldPosition − massCenter) × force` in engine units, where `massCenter` is the origin of the
engine body's world transform; that origin is the position reported by `GetPosition` when the
mass-center offset has zero translation. -/
theorem forceOffset_about_mass_center (cv : Convert) (o : CPhysicsObject) (f p : Vec3)
    (wantForce wantTorque : Bool)
    (hround : ∀ v, cv.ConvertForceImpulseToHL (cv.ConvertForceImpulseToBull v) = v) :
    o.CalculateForceOffset cv f p wantForce wantTorque =
        (if wantForce then some f else none,
         if wantTorque then some (cv.ConvertAngularImpulseToHL
            (((cv.ConvertPosToBull p).sub o.m_pObject.m_worldTransform.origin).cross
              (cv.ConvertForceImpulseToBull f)))
          else none) ∧
      (o.m_pObject.m_centerOfMassOffset.origin = Vec3.zero →
        (o.GetPosition cv true false).1 =
          some (cv.ConvertPosToHL o.m_pObject.m_worldTransform.origin)) := by
  constructor
  · unfold CalculateForceOffset
    cases wantForce <;> cases wantTorque <;> simp [hround]
  · intro h0
    simp only [GetPosition, btTransform.mul, btTransform.inverse, h0, Vec3.zero, Vec3.neg,
      Mat3.mulVec, Vec3.dot, Vec3.add]
    simp

/-- Witness for C10: the sample object under the unit converter, whose round-trip law holds by
computation. -/
theorem forceOffset_about_mass_center_witness :
    sampleObject.CalculateForceOffset unitConvert { x := 0, y := 1, z := 0 }
        { x := 1, y := 0, z := 0 } true true =
        (if true then some { x := 0, y := 1, z := 0 } else none,
         if true then some (unitConvert.ConvertAngularImpulseToHL
            (((unitConvert.ConvertPosToBull { x := 1, y := 0, z := 0 }).sub
                sampleObject.m_pObject.m_worldTransform.origin).cross
              (unitConvert.ConvertForceImpulseToBull { x := 0, y := 1, z := 0 })))
          else none) ∧
      (sampleObject.m_pObject.m_centerOfMassOffset.origin = Vec3.zero →
        (sampleObject.GetPosition unitConvert true false).1 =
          some (unitConvert.ConvertPosToHL sampleObject.m_pObject.m_worldTransform.origin)) :=
  forceOffset_about_mass_center unitConvert sampleObject { x := 0, y := 1, z := 0 }
    { x := 1, y := 0, z := 0 } true true (fun _ => rfl)

/-- C10 (counterexample): for the sample object with mass-center offset `(1, 0, 0)`, whose
`GetPosition` reports the body origin `(0, 0, 0)`, the force `(0, 1, 0)` at the world position
`(1, 0, 0)` gives `centerTorque = (0, 0, 0)`, while `(worldPosition − bodyOrigin) × force` is
`(0, 0, 1)`. -/
theorem forceOffset_torque_not_about_body_origin :
    (sampleOffsetObject.GetPosition unitConvert true false).1 = some { x := 0, y := 0, z := 0 } ∧
      (sampleOffsetObject.CalculateForceOffset unitConvert { x := 0, y := 1, z := 0 }
        { x := 1, y := 0, z := 0 } true true).2 = some { x := 0, y := 0, z := 0 } ∧
      specCenterTorque unitConvert sampleOffsetObject { x := 0, y := 1, z := 0 }
        { x := 1, y := 0, z := 0 } = some { x := 0, y := 0, z := 1 } := by
  simp only [specCenterTorque, GetPosition, CalculateForceOffset, sampleOffsetObject, sampleObject,
    sampleBody, unitConvert, btTransform.mul, btTransform.inverse, Mat3.identity, Mat3.transpose,
    Mat3.mul, Mat3.mulVec, Vec3.dot, Vec3.add, Vec3.sub, Vec3.neg, Vec3.cross, id]
  norm_num

/-! ### Enable flags -/

theorem EnableCollisions_isCollisionEnabled (o : CPhysicsObject) (e : Bool) :
    (o.EnableCollisions e).IsCollisionEnabled = e := by
  unfold EnableCollisions
  by_cases h : o.IsCollisionEnabled = e
  · rw [if_pos h]; exact h
  · rw [if_neg h]
    cases e
    · simp only [Bool.false_eq_true, if_false, IsCollisionEnabled, CF_NO_CONTACT_RESPONSE]
      have : (o.m_pObject.m_collisionFlags ||| 4) &&& 4 ≠ 0 := by
        intro h0
        have h2 := congrArg (fun n => n.testBit 2) h0
        have h4 : Nat.testBit 4 2 = true := by decide
        simp [h4] at h2
      simp [this]
    · simp only [if_true, IsCollisionEnabled, CF_NO_CONTACT_RESPONSE]
      have : (o.m_pObject.m_collisionFlags &&& bnot32 4) &&& 4 = 0 := by
        apply Nat.eq_of_testBit_eq
        intro i
        simp only [Nat.testBit_and, testBit_bnot32, Nat.zero_testBit]
        by_cases hi : i = 2
        · subst hi
          have h4 : Nat.testBit 4 2 = true := by decide
          simp [h4]
        · have : Nat.testBit 4 i = false := by
            have h4 : (4 : Nat) = 2 ^ 2 := by norm_num
            rw [h4, Nat.testBit_two_pow]
            simp; omega
          simp [this]
      simp [this]

theorem EnableGravity_false_isGravityEnabled (o : CPhysicsObject) :
    (o.EnableGravity false).IsGravityEnabled = false := by
  unfold EnableGravity
  by_cases hc : (decide (o.IsGravityEnabled = false) || o.IsStatic) = true
  · rw [if_pos hc]
    rcases Bool.or_eq_true _ _ |>.mp hc with h | h
    · simpa using h
    · simp [IsGravityEnabled, h]
  · rw [if_neg hc]
    simp only [Bool.false_eq_true, if_false, IsGravityEnabled, IsStatic, btRigidBody.setGravity,
      BT_DISABLE_WORLD_GRAVITY]
    have := and_one_of_or_one o.m_pObject.m_rigidbodyFlags
    simp [this]

theorem EnableDrag_false_isDragEnabled (o : CPhysicsObject) :
    (o.EnableDrag false).IsDragEnabled = false := by
  unfold EnableDrag
  by_cases hc : (o.IsStatic || decide (false = o.IsDragEnabled)) = true
  · rw [if_pos hc]
    rcases Bool.or_eq_true _ _ |>.mp hc with h | h
    · simp [IsDragEnabled, h]
    · have := of_decide_eq_true h
      exact this.symm
  · rw [if_neg hc]
    simp [IsDragEnabled, dragIsControlling, dragRemovePhysicsObject]

/-- C11: each of `EnableMotion`, `EnableGravity`, `EnableDrag` and `EnableCollisions` is
idempotent (a second call with the same argument returns the state of the first), and a call
whose argument equals the current `IsXEnabled()` returns the state unchanged. -/
theorem enable_idempotent (o : CPhysicsObject) (e : Bool) :
    ((o.EnableMotion e).EnableMotion e = o.EnableMotion e ∧
      (o.EnableGravity e).EnableGravity e = o.EnableGravity e ∧
      (o.EnableDrag e).EnableDrag e = o.EnableDrag e ∧
      (o.EnableCollisions e).EnableCollisions e = o.EnableCollisions e) ∧
    ((o.IsMotionEnabled = e → o.EnableMotion e = o) ∧
      (o.IsGravityEnabled = e → o.EnableGravity e = o) ∧
      (o.IsDragEnabled = e → o.EnableDrag e = o) ∧
      (o.IsCollisionEnabled = e → o.EnableCollisions e = o)) := by
  have hM : ∀ s : CPhysicsObject, s.IsMotionEnabled = e → s.EnableMotion e = s := by
    intro s h; simp [EnableMotion, h]
  have hG : ∀ s : CPhysicsObject, s.IsGravityEnabled = e → s.EnableGravity e = s := by
    intro s h; simp [EnableGravity, h]
  have hD : ∀ s : CPhysicsObject, s.IsDragEnabled = e → s.EnableDrag e = s := by
    intro s h; simp [EnableDrag, h]
  have hC : ∀ s : CPhysicsObject, s.IsCollisionEnabled = e → s.EnableCollisions e = s := by
    intro s h; simp [EnableCollisions, h]
  refine ⟨⟨?_, ?_, ?_, ?_⟩, hM o, hG o, hD o, hC o⟩
  · cases hs : o.IsStatic
    · exact hM _ (EnableMotion_motion o e hs)
    · have h := (static_noop o hs e 0).1
      rw [h, h]
  · cases hs : o.IsStatic
    · apply hG
      cases e
      · exact EnableGravity_false_isGravityEnabled o
      · rw [EnableGravity_true_isGravityEnabled, hs]; rfl
    · have h := (static_noop o hs e 0).2.1
      rw [h, h]
  · cases hs : o.IsStatic
    · apply hD
      cases e
      · exact EnableDrag_false_isDragEnabled o
      · rw [EnableDrag_true_isDragEnabled, hs]; rfl
    · have h := (static_noop o hs e 0).2.2.1
      rw [h, h]
  · exact hC _ (EnableCollisions_isCollisionEnabled o e)

/-- C12: on a non-static body `o` with motion enabled, `EnableMotion(false)` zeroes the linear
and angular velocity and the linear and angular factor and makes `IsMotionEnabled()` false; on a
non-static body `p` with motion disabled, `EnableMotion(true)` sets the linear factor to
`(1, 1, 1)` and the angular factor to 1 (on each axis), makes `IsMotionEnabled()` true and keeps
both velocities. -/
theorem enableMotion_effect (o p : CPhysicsObject) (ho : o.IsStatic = false)
    (hom : o.IsMotionEnabled = true) (hp : p.IsStatic = false) (hpm : p.IsMotionEnabled = false) :
    ((o.EnableMotion false).m_pObject.m_linearVelocity = Vec3.zero ∧
      (o.EnableMotion false).m_pObject.m_angularVelocity = Vec3.zero ∧
      (o.EnableMotion false).m_pObject.m_linearFactor = Vec3.zero ∧
      (o.EnableMotion false).m_pObject.m_angularFactor = Vec3.zero ∧
      (o.EnableMotion false).IsMotionEnabled = false) ∧
    ((p.EnableMotion true).m_pObject.m_linearFactor = { x := 1, y := 1, z := 1 } ∧
      (p.EnableMotion true).m_pObject.m_angularFactor = { x := 1, y := 1, z := 1 } ∧
      (p.EnableMotion true).IsMotionEnabled = true ∧
      (p.EnableMotion true).m_pObject.m_linearVelocity = p.m_pObject.m_linearVelocity ∧
      (p.EnableMotion true).m_pObject.m_angularVelocity = p.m_pObject.m_angularVelocity) := by
  have hom1 : o.m_bMotionEnabled = true := hom
  have hpm1 : p.m_bMotionEnabled = false := hpm
  constructor
  · simp [EnableMotion, hom1, ho, IsMotionEnabled, btRigidBody.setLinearFactor,
      btRigidBody.setAngularFactor, Vec3.zero]
  · simp [EnableMotion, hpm1, hp, IsMotionEnabled, btRigidBody.setLinearFactor,
      btRigidBody.setAngularFactor]

/-- Witness for C12: the sample dynamic object (motion enabled) for the first half, and the
sample object with velocity `(1, 2, 3)` and its motion flag off for the second. -/
theorem enableMotion_effect_witness :
    ((sampleObject.EnableMotion false).m_pObject.m_linearVelocity = Vec3.zero ∧
      (sampleObject.EnableMotion false).m_pObject.m_angularVelocity = Vec3.zero ∧
      (sampleObject.EnableMotion false).m_pObject.m_linearFactor = Vec3.zero ∧
      (sampleObject.EnableMotion false).m_pObject.m_angularFactor = Vec3.zero ∧
      (sampleObject.EnableMotion false).IsMotionEnabled = false) ∧
    ((sampleFrozenObject.EnableMotion true).m_pObject.m_linearFactor = { x := 1, y := 1, z := 1 } ∧
      (sampleFrozenObject.EnableMotion true).m_pObject.m_angularFactor =
        { x := 1, y := 1, z := 1 } ∧
      (sampleFrozenObject.EnableMotion true).IsMotionEnabled = true ∧
      (sampleFrozenObject.EnableMotion true).m_pObject.m_linearVelocity =
        sampleFrozenObject.m_pObject.m_linearVelocity ∧
      (sampleFrozenObject.EnableMotion true).m_pObject.m_angularVelocity =
        sampleFrozenObject.m_pObject.m_angularVelocity) :=
  enableMotion_effect sampleObject sampleFrozenObject (by decide) (by decide) (by decide)
    (by decide)

/-! ### The static-body invariant -/

theorem wake_sleep_static (s : CPhysicsObject) (h : s.IsStatic = true) :
    s.Wake = s ∧ s.Sleep = s := by
  simp [Wake, Sleep, h]

theorem EnableCollisions_static_bit (o : CPhysicsObject) (e : Bool) :
    (o.EnableCollisions e).IsStatic = o.IsStatic := by
  have h1 : ∀ f : Nat, (f &&& bnot32 CF_NO_CONTACT_RESPONSE) &&& CF_STATIC_OBJECT =
      f &&& CF_STATIC_OBJECT := by
    intro f
    apply Nat.eq_of_testBit_eq
    intro i
    simp only [Nat.testBit_and, testBit_bnot32, CF_NO_CONTACT_RESPONSE, CF_STATIC_OBJECT]
    cases i with
    | zero =>
      have h4 : Nat.testBit 4 0 = false := by decide
      simp [h4]
    | succ n => simp [Nat.testBit_succ]
  have h2 : ∀ f : Nat, (f ||| CF_NO_CONTACT_RESPONSE) &&& CF_STATIC_OBJECT =
      f &&& CF_STATIC_OBJECT := by
    intro f
    apply Nat.eq_of_testBit_eq
    intro i
    simp only [Nat.testBit_and, Nat.testBit_or, CF_NO_CONTACT_RESPONSE, CF_STATIC_OBJECT]
    cases i with
    | zero =>
      have h4 : Nat.testBit 4 0 = false := by decide
      simp [h4]
    | succ n => simp [Nat.testBit_succ]
  unfold EnableCollisions
  split
  · rfl
  · split
    · simp only [IsStatic, h1]
    · simp only [IsStatic, h2]

theorem EnableCollisions_frame (o : CPhysicsObject) (e : Bool) :
    (o.EnableCollisions e).m_bMotionEnabled = o.m_bMotionEnabled ∧
      (o.EnableCollisions e).m_pFluidController = o.m_pFluidController := by
  unfold EnableCollisions
  split
  · exact ⟨rfl, rfl⟩
  · split <;> exact ⟨rfl, rfl⟩

theorem BecomeTrigger_static (K : Consts) (s : CPhysicsObject) (h : s.IsStatic = true) :
    (s.BecomeTrigger K).IsStatic = true ∧
      (s.BecomeTrigger K).m_bMotionEnabled = s.m_bMotionEnabled ∧
      (s.BecomeTrigger K).m_pFluidController = s.m_pFluidController := by
  have hd := (static_noop s h false 0).2.2.1
  have hg := (static_noop s h false 0).2.1
  unfold BecomeTrigger
  split
  · exact ⟨h, rfl, rfl⟩
  · simp only [hd, hg]
    exact ⟨h, trivial, trivial⟩

theorem RemoveTrigger_static (K : Consts) (s : CPhysicsObject) (h : s.IsStatic = true)
    (hf : s.m_pFluidController = none) :
    ∃ r, s.RemoveTrigger K = some r ∧ r.IsStatic = true ∧
      r.m_bMotionEnabled = s.m_bMotionEnabled ∧ r.m_pFluidController = none := by
  have hd := (static_noop s h true 0).2.2.1
  have hg := (static_noop s h true 0).2.1
  unfold RemoveTrigger
  by_cases ht : s.IsTrigger = true
  · have hghost : s.m_pGhostObject.isSome = true := by
      simpa [IsTrigger, hf] using ht
    obtain ⟨g, hg1⟩ := Option.isSome_iff_exists.mp hghost
    simp only [ht, Bool.not_true, Bool.false_eq_true, if_false, hd, hg, hg1, h, if_true]
    refine ⟨_, rfl, ?_, rfl, hf⟩
    simp only [IsStatic, addRigidBody_collisionFlags]
    exact h
  · simp only [Bool.not_eq_true] at ht
    simp only [ht, Bool.not_false, if_true]
    exact ⟨s, rfl, h, rfl, hf⟩

theorem LifecycleCall_static (K : Consts) (s : CPhysicsObject) (c : LifecycleCall)
    (h : s.IsStatic = true) (hm : s.m_bMotionEnabled = false)
    (hf : s.m_pFluidController = none) :
    ∃ r, c.run K s = some r ∧ r.IsStatic = true ∧ r.m_bMotionEnabled = false ∧
      r.m_pFluidController = none := by
  cases c with
  | enableMotion e => exact ⟨_, rfl, by rw [(static_noop s h e 0).1]; exact ⟨h, hm, hf⟩⟩
  | enableGravity e => exact ⟨_, rfl, by rw [(static_noop s h e 0).2.1]; exact ⟨h, hm, hf⟩⟩
  | enableDrag e => exact ⟨_, rfl, by rw [(static_noop s h e 0).2.2.1]; exact ⟨h, hm, hf⟩⟩
  | enableCollisions e =>
    exact ⟨_, rfl, by rw [EnableCollisions_static_bit]; exact h,
      by rw [(EnableCollisions_frame s e).1]; exact hm,
      by rw [(EnableCollisions_frame s e).2]; exact hf⟩
  | setMass m => exact ⟨_, rfl, by rw [(static_noop s h true m).2.2.2]; exact ⟨h, hm, hf⟩⟩
  | wake => exact ⟨_, rfl, by rw [(wake_sleep_static s h).1]; exact ⟨h, hm, hf⟩⟩
  | sleep => exact ⟨_, rfl, by rw [(wake_sleep_static s h).2]; exact ⟨h, hm, hf⟩⟩
  | becomeTrigger =>
    obtain ⟨h1, h2, h3⟩ := BecomeTrigger_static K s h
    exact ⟨_, rfl, h1, h2.trans hm, h3.trans hf⟩
  | removeTrigger =>
    obtain ⟨r, hr, h1, h2, h3⟩ := RemoveTrigger_static K s h hf
    exact ⟨r, hr, h1, h2.trans hm, h3⟩

theorem runLifecycle_static (K : Consts) (calls : List LifecycleCall) :
    ∀ s : CPhysicsObject, s.IsStatic = true → s.m_bMotionEnabled = false →
      s.m_pFluidController = none →
      ∃ r, runLifecycle K s calls = some r ∧ r.IsStatic = true ∧ r.m_bMotionEnabled = false ∧
        r.m_pFluidController = none := by
  induction calls with
  | nil => intro s h hm hf; exact ⟨s, rfl, h, hm, hf⟩
  | cons c cs ih =>
    intro s h hm hf
    obtain ⟨s1, hs1, h1, hm1, hf1⟩ := LifecycleCall_static K s c h hm hf
    obtain ⟨r, hr, hr1, hr2, hr3⟩ := ih s1 h1 hm1 hf1
    exact ⟨r, by simp only [runLifecycle, hs1]; exact hr, hr1, hr2, hr3⟩

theorem SetMaterialIndex_motion (db : Int → Option surfacephysicsparams_t) (o : CPhysicsObject)
    (i : Int) : (o.SetMaterialIndex db i).m_bMotionEnabled = o.m_bMotionEnabled := by
  unfold SetMaterialIndex
  split <;> rfl

theorem SetMaterialIndex_fluid (db : Int → Option surfacephysicsparams_t) (o : CPhysicsObject)
    (i : Int) : (o.SetMaterialIndex db i).m_pFluidController = o.m_pFluidController := by
  unfold SetMaterialIndex
  split <;> rfl

theorem ComputeDragBasis_motion (A : ℚ → ℚ → ℚ → ℚ → ℚ) (o : CPhysicsObject) (isStatic : Bool) :
    (o.ComputeDragBasis A isStatic).m_bMotionEnabled = o.m_bMotionEnabled := by
  unfold ComputeDragBasis
  simp only
  split
  · rfl
  · split <;> rfl

theorem ComputeDragBasis_fluid (A : ℚ → ℚ → ℚ → ℚ → ℚ) (o : CPhysicsObject) (isStatic : Bool) :
    (o.ComputeDragBasis A isStatic).m_pFluidController = o.m_pFluidController := by
  unfold ComputeDragBasis
  simp only
  split
  · rfl
  · split <;> rfl

theorem Init_static_fields (K : Consts) (db : Int → Option surfacephysicsparams_t)
    (A : ℚ → ℚ → ℚ → ℚ → ℚ) (o : CPhysicsObject) (pEnv : CPhysicsEnvironment)
    (pObject : btRigidBody) (materialIndex : Int) (pParams : Option objectparams_t)
    (isSphere : Bool) :
    ∃ s, Init K db A o pEnv pObject materialIndex pParams true isSphere = some s ∧
      s.IsStatic = true ∧ s.m_bMotionEnabled = false ∧
      s.m_pFluidController = o.m_pFluidController := by
  obtain ⟨s, hs, hst⟩ := Init_static K db A o pEnv pObject materialIndex pParams isSphere
  refine ⟨s, hs, hst, ?_, ?_⟩
  · simp only [Init, if_true, Option.some.injEq] at hs
    subst hs
    cases pParams <;>
      simp [ComputeDragBasis_motion, SetContents, SetMaterialIndex_motion,
        (EnableCollisions_frame _ _).1]
  · simp only [Init, if_true, Option.some.injEq] at hs
    subst hs
    cases pParams <;>
      simp [ComputeDragBasis_fluid, SetContents, SetMaterialIndex_fluid,
        (EnableCollisions_frame _ _).2]

/-- C13: a body constructed and initialised static stays static through every sequence of
`EnableMotion`, `EnableGravity`, `EnableDrag`, `EnableCollisions`, `SetMass`, `Wake`, `Sleep`,
`BecomeTrigger` and `RemoveTrigger` calls; every such sequence runs to its end, and afterwards
`IsMotionEnabled()`, `IsGravityEnabled()`, `IsDragEnabled()` and `IsMoveable()` are false and
`Wake()` and `Sleep()` return the state (activation state included) unchanged. -/
theorem static_invariant (K : Consts) (db : Int → Option surfacephysicsparams_t)
    (A : ℚ → ℚ → ℚ → ℚ → ℚ) (mem : CPhysicsObject) (pEnv : CPhysicsEnvironment)
    (pObject : btRigidBody) (materialIndex : Int) (pParams : Option objectparams_t)
    (isSphere : Bool) (calls : List LifecycleCall) :
    ∃ s r, Init K db A mem.construct pEnv pObject materialIndex pParams true isSphere = some s ∧
      runLifecycle K s calls = some r ∧
      r.IsStatic = true ∧ r.IsMotionEnabled = false ∧ r.IsGravityEnabled = false ∧
      r.IsDragEnabled = false ∧ r.IsMoveable = false ∧
      r.Wake = r ∧ r.Sleep = r ∧
      r.Wake.m_pObject.m_activationState1 = r.m_pObject.m_activationState1 ∧
      r.Sleep.m_pObject.m_activationState1 = r.m_pObject.m_activationState1 := by
  obtain ⟨s, hs, h, hm, hf⟩ :=
    Init_static_fields K db A mem.construct pEnv pObject materialIndex pParams isSphere
  obtain ⟨r, hr, h1, h2, _⟩ := runLifecycle_static K calls s h hm hf
  have hw := wake_sleep_static r h1
  refine ⟨s, r, hs, hr, h1, h2, ?_, ?_, ?_, hw.1, hw.2, by rw [hw.1], by rw [hw.2]⟩
  · simp [IsGravityEnabled, h1]
  · simp [IsDragEnabled, h1]
  · simp [IsMoveable, h1]

/-! ### Mass and material -/

/-- C15: for a material index that the surface table holds, `SetMaterialIndex` stores the index
and sets the buoyancy ratio to `SAFE_DIVIDE(SAFE_DIVIDE(mass, volume), density)`, which is
`(mass / volume) / density` when volume and density are not zero and `0` when either is zero;
for an index that the table does not hold it returns the state unchanged. -/
theorem setMaterialIndex_buoyancy (db : Int → Option surfacephysicsparams_t) (o : CPhysicsObject)
    (materialIndex : Int) :
    match db materialIndex with
    | some pSurface =>
      (o.SetMaterialIndex db materialIndex).GetMaterialIndex = materialIndex ∧
        (o.SetMaterialIndex db materialIndex).m_fBuoyancyRatio =
          SAFE_DIVIDE (SAFE_DIVIDE o.m_fMass o.m_fVolume) pSurface.density ∧
        (o.m_fVolume ≠ 0 → pSurface.density ≠ 0 →
          (o.SetMaterialIndex db materialIndex).m_fBuoyancyRatio =
            o.m_fMass / o.m_fVolume / pSurface.density) ∧
        (o.m_fVolume = 0 ∨ pSurface.density = 0 →
          (o.SetMaterialIndex db materialIndex).m_fBuoyancyRatio = 0)
    | none => o.SetMaterialIndex db materialIndex = o := by
  cases hdb : db materialIndex with
  | none => simp [SetMaterialIndex, hdb]
  | some pSurface =>
    refine ⟨?_, ?_, ?_, ?_⟩
    · simp [SetMaterialIndex, hdb, GetMaterialIndex]
    · simp [SetMaterialIndex, hdb]
    · intro hv hd
      simp [SetMaterialIndex, hdb, SAFE_DIVIDE, hv, hd]
    · rintro (hv | hd)
      · simp [SetMaterialIndex, hdb, SAFE_DIVIDE, hv]
      · simp [SetMaterialIndex, hdb, SAFE_DIVIDE, hd]

/-! ### Collision-filter recheck -/

theorem recheck_loop_some (f : Option Nat → Option Nat → Bool) (arr : List btBroadphasePair) :
    ∀ (k : Nat) (cache : List btBroadphasePair), k ≤ arr.length →
      RecheckCollisionFilter.loop (some f) arr k cache =
        cache.filter (fun q =>
          !(decide (q ∈ arr.take k) &&
            !f q.m_pProxy0.m_clientObject.m_userPointer q.m_pProxy1.m_clientObject.m_userPointer)) := by
  intro k
  induction k with
  | zero =>
    intro cache _
    simp [RecheckCollisionFilter.loop]
  | succ i ih =>
    intro cache hk
    have hi : i < arr.length := hk
    have hget : arr[i]? = some arr[i] := List.getElem?_eq_getElem hi
    have htake : arr.take (i + 1) = arr.take i ++ [arr[i]] := by
      rw [List.take_succ, hget]; rfl
    have hmem : ∀ q : btBroadphasePair,
        decide (q ∈ arr.take (i + 1)) = (decide (q ∈ arr.take i) || decide (q = arr[i])) := by
      intro q
      have hiff : q ∈ arr.take (i + 1) ↔ q ∈ arr.take i ∨ q = arr[i] := by
        rw [htake, List.mem_append, List.mem_singleton]
      simp only [hiff, Bool.decide_or]
    simp only [RecheckCollisionFilter.loop, hget]
    rw [ih _ (Nat.le_of_lt hi)]
    by_cases hrej : f arr[i].m_pProxy0.m_clientObject.m_userPointer
        arr[i].m_pProxy1.m_clientObject.m_userPointer = true
    · simp only [hrej, Bool.not_true, Bool.false_eq_true, if_false]
      apply List.filter_congr
      intro q _
      rw [hmem q]
      by_cases hq : q = arr[i]
      · rw [hq]; simp [hrej]
      · simp [hq]
    · simp only [Bool.not_eq_true] at hrej
      simp only [hrej, Bool.not_false, if_true, removeOverlappingPair, List.filter_filter]
      apply List.filter_congr
      intro q _
      rw [hmem q]
      by_cases hq : q = arr[i]
      · rw [hq]; simp [hrej]
      · have hne : ¬ (q.m_pProxy0 = arr[i].m_pProxy0 ∧ q.m_pProxy1 = arr[i].m_pProxy1) := by
          rintro ⟨h0, h1⟩
          apply hq
          cases q
          cases hx : arr[i]
          simp_all
        simp only [hq, decide_False, Bool.or_false]
        have hdec : (decide (q.m_pProxy0 = arr[i].m_pProxy0) &&
            decide (q.m_pProxy1 = arr[i].m_pProxy1)) = false := by
          simpa using fun h0 => fun h1 => hne ⟨h0, h1⟩
        simp [hdec]

theorem recheck_loop_none (arr : List btBroadphasePair) :
    ∀ (k : Nat) (cache : List btBroadphasePair),
      RecheckCollisionFilter.loop none arr k cache = cache := by
  intro k
  induction k with
  | zero => intro cache; rfl
  | succ i ih =>
    intro cache
    simp only [RecheckCollisionFilter.loop]
    split
    · rfl
    · exact ih _

/-- C16: with a collision solver, after `RecheckCollisionFilter()` a pair is in the overlapping
pair cache exactly if it was in the cache before and the solver's `NeedsCollision` accepts the
two objects of the pair; the result depends on the cache and the solver only, not on the object
the call is made on, whose other state is unchanged. With no solver the call changes nothing. -/
theorem recheck_keeps_accepted_pairs (f : Option Nat → Option Nat → Bool) (o : CPhysicsObject) :
    (∀ q : btBroadphasePair, q ∈ (o.RecheckCollisionFilter (some f)).m_pEnv.pairCache ↔
      (q ∈ o.m_pEnv.pairCache ∧
        f q.m_pProxy0.m_clientObject.m_userPointer q.m_pProxy1.m_clientObject.m_userPointer = true)) ∧
    (∀ p : CPhysicsObject, p.m_pEnv.pairCache = o.m_pEnv.pairCache →
      (p.RecheckCollisionFilter (some f)).m_pEnv.pairCache =
        (o.RecheckCollisionFilter (some f)).m_pEnv.pairCache) ∧
    o.RecheckCollisionFilter (some f) =
      { o with m_pEnv := { o.m_pEnv with
          pairCache := (o.RecheckCollisionFilter (some f)).m_pEnv.pairCache } } ∧
    o.RecheckCollisionFilter none = o := by
  refine ⟨?_, ?_, rfl, ?_⟩
  · intro q
    simp only [RecheckCollisionFilter, recheck_loop_some f _ _ _ (Nat.le_refl _), List.take_length,
      List.mem_filter]
    constructor
    · rintro ⟨hq, h⟩
      refine ⟨hq, ?_⟩
      simpa [hq] using h
    · rintro ⟨hq, h⟩
      exact ⟨hq, by simp [hq, h]⟩
  · intro p hp
    simp only [RecheckCollisionFilter, hp]
  · simp only [RecheckCollisionFilter, recheck_loop_none]

/-! ### Contact query -/

theorem scan_eq_find (cv : Convert) (a : Nat) (wp wo : Bool) :
    ∀ ms : List btPersistentManifold,
      GetContactPoint.scan cv a wp wo ms =
        match ms.find? (touchesBody a) with
        | some m =>
          (true, if wp then some (cv.ConvertPosToHL (contactPosition a m)) else none,
            if wo then some (otherBody a m) else none)
        | none => (false, none, none) := by
  intro ms
  induction ms with
  | nil => rfl
  | cons m rest ih =>
    by_cases hc : m.m_cachedPoints ≤ 0
    · have ht : touchesBody a m = false := by
        simp [touchesBody, hc]
      simp only [GetContactPoint.scan, hc, if_true, List.find?_cons, ht]
      exact ih
    · have hc1 : 0 < m.m_cachedPoints := by omega
      by_cases h0 : m.m_body0.address = a
      · have ht : touchesBody a m = true := by simp [touchesBody, hc1, h0]
        simp [GetContactPoint.scan, hc, h0, List.find?_cons, ht, contactPosition, otherBody]
      · by_cases h1 : m.m_body1.address = a
        · have ht : touchesBody a m = true := by simp [touchesBody, hc1, h1]
          simp [GetContactPoint.scan, hc, h0, h1, List.find?_cons, ht, contactPosition, otherBody]
        · have ht : touchesBody a m = false := by simp [touchesBody, h0, h1]
          simp only [GetContactPoint.scan, hc, h0, h1, if_false, List.find?_cons, ht]
          exact ih

/-- C17: with both outputs null `GetContactPoint` returns false and writes nothing. Otherwise it
returns true exactly if some manifold of the dispatcher has at least one contact point and this
body as body 0 or body 1, and then what it writes comes from the lowest-index such manifold: the
converted contact position through a non-null `contactPoint`, and the user pointer of the other
body through a non-null `contactObject`. -/
theorem getContactPoint_first_touching (cv : Convert) (o : CPhysicsObject) (wantPoint wantObject : Bool) :
    o.GetContactPoint cv false false = (false, none, none) ∧
    ((wantPoint || wantObject) = true →
      (((o.GetContactPoint cv wantPoint wantObject).1 = true ↔
          ∃ m ∈ o.m_pEnv.manifolds, touchesBody o.m_pObject.address m = true) ∧
        ∀ m, o.m_pEnv.manifolds.find? (touchesBody o.m_pObject.address) = some m →
          o.GetContactPoint cv wantPoint wantObject =
            (true,
             if wantPoint then some (cv.ConvertPosToHL (contactPosition o.m_pObject.address m))
              else none,
             if wantObject then some (otherBody o.m_pObject.address m) else none))) := by
  refine ⟨by simp [GetContactPoint], ?_⟩
  intro hw
  have hn : (!wantPoint && !wantObject) = false := by
    cases wantPoint <;> cases wantObject <;> simp_all
  simp only [GetContactPoint, hn, Bool.false_eq_true, if_false, scan_eq_find]
  constructor
  · cases hfind : o.m_pEnv.manifolds.find? (touchesBody o.m_pObject.address) with
    | none =>
      simp only [Bool.false_eq_true, false_iff, not_exists, not_and]
      intro m hm
      have := List.find?_eq_none.mp hfind m hm
      simpa using this
    | some m =>
      simp only [true_iff]
      exact ⟨m, List.mem_of_find?_eq_some hfind, List.find?_some hfind⟩
  · intro m hm
    simp only [hm]

/-! ### Shadow detachment, trigger safety, velocity offsets -/

/-- C18: for every body, with or without a shadow controller, `RemoveShadowController()` leaves
no shadow controller attached, and each of the 16 bits of the callback flags is afterwards set
if it is the global-friction or the global-collide-static bit, cleared if it is (only) the
shadow-collision bit, and as before the call otherwise. -/
theorem removeShadowController_flags (K : Consts) (o : CPhysicsObject) :
    (o.RemoveShadowController K).m_pShadow = none ∧
    (∀ i, (o.RemoveShadowController K).GetCallbackFlags.testBit i =
      (decide (i < 16) && ((o.GetCallbackFlags.testBit i && !K.CALLBACK_SHADOW_COLLISION.testBit i) ||
        K.CALLBACK_GLOBAL_FRICTION.testBit i || K.CALLBACK_GLOBAL_COLLIDE_STATIC.testBit i))) ∧
    (∀ i, i < 16 → K.CALLBACK_SHADOW_COLLISION.testBit i = false →
      K.CALLBACK_GLOBAL_FRICTION.testBit i = false →
      K.CALLBACK_GLOBAL_COLLIDE_STATIC.testBit i = false →
      (o.RemoveShadowController K).GetCallbackFlags.testBit i = o.GetCallbackFlags.testBit i) := by
  refine ⟨rfl, fun i => RemoveShadowController_callbacks K o i, ?_⟩
  intro i hi hs hf hc
  have h := RemoveShadowController_callbacks K o i
  simp only [GetCallbackFlags]
  rw [h]
  simp [hi, hs, hf, hc]

/-- C19 (failing input): the sample object with a fluid controller attached and no ghost object
reports `IsTrigger()` true, `BecomeTrigger()` leaves it without a ghost, and `RemoveTrigger()`
dereferences the null `m_pGhostObject`. -/
theorem removeTrigger_fluid_null_ghost :
    sampleFluidObject.IsTrigger = true ∧ sampleFluidObject.m_pGhostObject = none ∧
      (sampleFluidObject.BecomeTrigger sdkConsts).m_pGhostObject = none ∧
      sampleFluidObject.RemoveTrigger sdkConsts = none ∧
      (sampleFluidObject.BecomeTrigger sdkConsts).RemoveTrigger sdkConsts = none := by
  decide

/-- C20: for the same body, force and world position, the angular output of
`CalculateVelocityOffset` is the torque output of `CalculateForceOffset` (no inverse inertia
applied), and its linear output is the force in engine units scaled by the engine body's inverse
mass, converted back to client units; under a force conversion that round-trips and commutes
with scaling this is the force itself scaled by the inverse mass. -/
theorem velocityOffset_outputs (cv : Convert) (o : CPhysicsObject) (f p : Vec3)
    (wantVelocity wantForce : Bool) :
    (o.CalculateVelocityOffset cv f p wantVelocity true).2 =
        (o.CalculateForceOffset cv f p wantForce true).2 ∧
      (o.CalculateVelocityOffset cv f p wantVelocity true).2 =
        some (cv.ConvertAngularImpulseToHL
          (((cv.ConvertPosToBull p).sub o.m_pObject.m_worldTransform.origin).cross
            (cv.ConvertForceImpulseToBull f))) ∧
      (o.CalculateVelocityOffset cv f p true wantForce).1 =
        some (cv.ConvertForceImpulseToHL
          ((cv.ConvertForceImpulseToBull f).scale o.m_pObject.m_inverseMass)) ∧
      ((∀ v, cv.ConvertForceImpulseToHL (cv.ConvertForceImpulseToBull v) = v) →
        (∀ v k, cv.ConvertForceImpulseToBull (v.scale k) = (cv.ConvertForceImpulseToBull v).scale k) →
        (o.CalculateVelocityOffset cv f p true wantForce).1 =
          some (f.scale o.m_pObject.m_inverseMass)) := by
  refine ⟨?_, ?_, ?_, ?_⟩
  · simp [CalculateVelocityOffset, CalculateForceOffset]
  · simp [CalculateVelocityOffset]
  · simp [CalculateVelocityOffset]
  · intro hround hscale
    simp [CalculateVelocityOffset, ← hscale, hround]

/-! ### Sphere creation -/

theorem EnableCollisions_volume (o : CPhysicsObject) (e : Bool) :
    (o.EnableCollisions e).m_fVolume = o.m_fVolume := by
  unfold EnableCollisions
  split
  · rfl
  · split <;> rfl

theorem SetMaterialIndex_volume (db : Int → Option surfacephysicsparams_t) (o : CPhysicsObject)
    (i : Int) : (o.SetMaterialIndex db i).m_fVolume = o.m_fVolume := by
  unfold SetMaterialIndex
  split <;> rfl

theorem ComputeDragBasis_volume (A : ℚ → ℚ → ℚ → ℚ → ℚ) (o : CPhysicsObject) (isStatic : Bool) :
    (o.ComputeDragBasis A isStatic).m_fVolume = o.m_fVolume := by
  unfold ComputeDragBasis
  simp only
  split
  · rfl
  · split <;> rfl

theorem EnableDrag_volume (o : CPhysicsObject) (e : Bool) :
    (o.EnableDrag e).m_fVolume = o.m_fVolume := by
  unfold EnableDrag
  split
  · rfl
  · split <;> rfl

theorem Init_volume (K : Consts) (db : Int → Option surfacephysicsparams_t)
    (A : ℚ → ℚ → ℚ → ℚ → ℚ) (o : CPhysicsObject) (pEnv : CPhysicsEnvironment)
    (pObject : btRigidBody) (materialIndex : Int) (p : objectparams_t)
    (isStatic isSphere : Bool) (s : CPhysicsObject)
    (h : Init K db A o pEnv pObject materialIndex (some p) isStatic isSphere = some s) :
    s.m_fVolume = p.volume * K.CUBIC_METERS_PER_CUBIC_INCH := by
  cases isStatic
  · simp only [Init, Bool.false_eq_true, if_false] at h
    split at h
    · exact absurd h (by simp)
    · simp only [Option.some.injEq] at h
      subst h
      simp [apply_ite CPhysicsObject.m_fVolume, ComputeDragBasis_volume, EnableDrag_volume,
        SetContents, SetMaterialIndex_volume, EnableCollisions_volume]
  · simp only [Init, if_true, Option.some.injEq] at h
    subst h
    simp [ComputeDragBasis_volume, SetContents, SetMaterialIndex_volume, EnableCollisions_volume]

theorem setActivationState_shape (b : btRigidBody) (n : Int) :
    (b.setActivationState n).m_collisionShape = b.m_collisionShape := by
  unfold btRigidBody.setActivationState
  split <;> rfl

theorem EnableCollisions_shape (o : CPhysicsObject) (e : Bool) :
    (o.EnableCollisions e).m_pObject.m_collisionShape = o.m_pObject.m_collisionShape := by
  unfold EnableCollisions
  split
  · rfl
  · split <;> rfl

theorem SetMaterialIndex_shape (db : Int → Option surfacephysicsparams_t) (o : CPhysicsObject)
    (i : Int) :
    (o.SetMaterialIndex db i).m_pObject.m_collisionShape = o.m_pObject.m_collisionShape := by
  unfold SetMaterialIndex
  split <;> rfl

theorem ComputeDragBasis_shape (A : ℚ → ℚ → ℚ → ℚ → ℚ) (o : CPhysicsObject) (isStatic : Bool) :
    (o.ComputeDragBasis A isStatic).m_pObject.m_collisionShape = o.m_pObject.m_collisionShape := by
  unfold ComputeDragBasis
  simp only
  split
  · rfl
  · split <;> rfl

theorem Init_of_shape (K : Consts) (db : Int → Option surfacephysicsparams_t)
    (A : ℚ → ℚ → ℚ → ℚ → ℚ) (o : CPhysicsObject) (pEnv : CPhysicsEnvironment)
    (pObject : btRigidBody) (materialIndex : Int) (pParams : Option objectparams_t)
    (isStatic isSphere : Bool) (shape : btCollisionShape)
    (hshape : pObject.m_collisionShape = some shape) :
    ∃ s, Init K db A o pEnv pObject materialIndex pParams isStatic isSphere = some s := by
  cases isStatic
  · simp only [Init, Bool.false_eq_true, if_false]
    split
    · rename_i hnone
      exfalso
      revert hnone
      cases pParams <;>
        simp [apply_ite CPhysicsObject.m_pObject, apply_ite btRigidBody.m_collisionShape,
          EnableDrag_pObject, ComputeDragBasis_shape, SetContents, SetMaterialIndex_shape,
          EnableCollisions_shape, setActivationState_shape, hshape]
    · exact ⟨_, rfl⟩
  · obtain ⟨s, hs, _⟩ := Init_static K db A o pEnv pObject materialIndex pParams isSphere
    exact ⟨s, hs⟩

theorem new_body_shape (address : Nat) (mass : ℚ) (w c : btTransform)
    (shape : Option btCollisionShape) :
    (btRigidBody.new address mass w c shape).m_collisionShape = shape := by
  simp [btRigidBody.new, btRigidBody.setMassProps, btRigidBody.updateInertiaTensor]

/-- C21 (failing input): `CreatePhysicsSphere` with radius 1 and parameters of volume 0 leaves
the parameters' volume at `M_PI` (the `int` quotient `4 / 3` is 1) and not at the volume
`(4/3) * M_PI` of the sphere. In general the call with an environment returns an object; it
leaves parameters with volume `≤ 0` with the volume `M_PI * r * r * r` and keeps parameters with
volume `> 0`, and the object's volume is the parameters' volume, so left, in cubic meters. -/
theorem createSphere_volume_integer_division :
    ((CreatePhysicsSphere sdkConsts (fun _ => none) (fun _ _ _ _ => 0) unitConvert
        (fun _ => Mat3.identity) (fun _ => sampleShape) sampleObject 7 (some sampleEnv) 1 0
        Vec3.zero Vec3.zero (some sampleParams) false).2.map (fun p => p.volume) = some M_PI ∧
      specSphereVolume 1 = 4 / 3 * M_PI ∧ M_PI ≠ specSphereVolume 1) ∧
    (∀ (K : Consts) (db : Int → Option surfacephysicsparams_t) (A : ℚ → ℚ → ℚ → ℚ → ℚ)
      (cv : Convert) (R : Vec3 → Mat3) (S : ℚ → btCollisionShape) (mem : CPhysicsObject)
      (bodyAddress : Nat) (env : CPhysicsEnvironment) (r : ℚ) (materialIndex : Int)
      (position angles : Vec3) (p : objectparams_t) (isStatic : Bool),
      (CreatePhysicsSphere K db A cv R S mem bodyAddress (some env) r materialIndex position
        angles (some p) isStatic).2 =
        some (if p.volume ≤ 0 then { p with volume := M_PI * r * r * r } else p) ∧
      ∃ s, (CreatePhysicsSphere K db A cv R S mem bodyAddress (some env) r materialIndex position
        angles (some p) isStatic).1 = some s ∧
        s.m_fVolume = (if p.volume ≤ 0 then M_PI * r * r * r else p.volume) *
          K.CUBIC_METERS_PER_CUBIC_INCH) := by
  have h43 : (((4 / 3 : Int) : ℚ)) = 1 := by decide
  refine ⟨⟨?_, ?_, ?_⟩, ?_⟩
  · simp [CreatePhysicsSphere, sampleParams, h43]
  · simp [specSphereVolume]
  · simp only [specSphereVolume, M_PI]
    norm_num
  · intro K db A cv R S mem bodyAddress env r materialIndex position angles p isStatic
    have hp : (CreatePhysicsSphere K db A cv R S mem bodyAddress (some env) r materialIndex position
        angles (some p) isStatic).2 =
        some (if p.volume ≤ 0 then { p with volume := M_PI * r * r * r } else p) := by
      simp only [CreatePhysicsSphere, h43, one_mul]
      split <;> rfl
    refine ⟨hp, ?_⟩
    have hinit : (CreatePhysicsSphere K db A cv R S mem bodyAddress (some env) r materialIndex
        position angles (some p) isStatic).1 =
        Init K db A mem.construct env
          (btRigidBody.new bodyAddress (if isStatic then 0 else p.mass)
            (massCenterWorldTransform
              { basis := R angles, origin := cv.ConvertPosToBull position } btTransform.identity)
            btTransform.identity (some (S r))) materialIndex
          (some (if p.volume ≤ 0 then { p with volume := M_PI * r * r * r } else p))
          isStatic true := by
      simp only [CreatePhysicsSphere, h43, one_mul]
      by_cases hv : p.volume ≤ 0 <;> cases isStatic <;> simp [hv]
    obtain ⟨s, hs⟩ := Init_of_shape K db A mem.construct env _ materialIndex
      (some (if p.volume ≤ 0 then { p with volume := M_PI * r * r * r } else p)) isStatic true
      (S r) (new_body_shape bodyAddress (if isStatic then 0 else p.mass) _ _ (some (S r)))
    refine ⟨s, hinit.trans hs, ?_⟩
    rw [Init_volume K db A _ _ _ _ _ _ _ s hs]
    split <;> rfl

end CPhysicsObject

end PhysicsObject
